/-
Verification of the Selvia ISP study-plan engine.

Shallow embedding of the plan-generation engine:
* the Pass 1 overlap-V1 allocator (`allocator.ts`): budgets, theory/cases/
  programming stream selection, daily STUDY_THEME cap, unit activation and
  interleaving, budget update;
* capacity calculation (`capacity.ts`);
* student state, feedback events and slack (`state.ts`);
* the day builder / replanner (`generatePlanFromState`), whose source is not
  in the repository snapshot (only its tests are); it is modelled from the
  specification, sections 4.4 and 4.5.

Modelling conventions:
* JS numbers are embedded as rationals (ℚ); `Math.floor`/`Math.ceil`/
  `Math.round` are `Int.floor`/`Int.ceil`/`round`; the decimal constants
  0.5, 0.6, 0.4, 0.7 are the exact rationals 1/2, 3/5, 2/5, 7/10.
* ISO calendar dates are embedded as integer day numbers (one unit = one
  local calendar day); `addDays` is addition, `diffDays` subtraction and
  `getWeekday` reduction mod 7 anchored so that day 0 is a Thursday (4),
  matching `Date.getDay` for the 1970-01-01 epoch.
* The record `unitTheoryRemaining : Record<string, UnitTheoryBudget>` has
  exactly the keys "Unidad 1" … "Unidad n", and `sortedUnitKeys` sorts them
  by their number; it is embedded as a list indexed by position, position i
  standing for key "Unidad (i+1)".  Unit references (`studyThemeTodayUnit`,
  event units, block units) are `Option Nat` positions; `null`/`undefined`
  both map to `none` wherever the source treats them alike.
* Mutation of the budget and of the allocator context is embedded by
  returning the updated value.
-/
import Mathlib

namespace Selvia

/-! ## Date arithmetic (`src/lib/utils/date.ts`) -/

/-- ISO calendar day, embedded as an integer day number. -/
abbrev DateISO := Int

/-- Source `addDays`: add calendar days. -/
def addDays (d : DateISO) (n : Int) : DateISO := d + n

/-- Source `diffDays`: whole calendar days from `d1` to `d2`. -/
def diffDays (d1 d2 : DateISO) : Int := d2 - d1

/-- Source `getWeekday`: 0 = Sunday … 6 = Saturday.  Day number 0
(1970-01-01) is a Thursday, hence the anchor `+ 4`. -/
def getWeekday (d : DateISO) : Int := (d + 4) % 7

/-- Source `availabilityIndex` (capacity.ts): map weekday 0(Sun)…6(Sat) to
availability index 0(Mon)…6(Sun). -/
def availabilityIndex (wd : Int) : Nat := if wd = 0 then 6 else (wd - 1).toNat

/-! ## Activity tags and rule constants (`rules.ts`) -/

/-- The closed overlap-V1 activity tag set. -/
inductive ActivityType where
  | STUDY_THEME
  | REVIEW
  | PODCAST
  | FLASHCARD
  | QUIZ
  | CASE_PRACTICE
  | CASE_MOCK
  | PROGRAMMING_BLOCK
deriving DecidableEq, Repr

def THEORY_ENVELOPE_MINUTES : ℚ := 510

def STUDY_THEME_MINUTES : ℚ := 240

def START_NEXT_UNIT_THRESHOLD : ℚ := 120

def STUDY_THEME_COMPLETE_THRESHOLD : ℚ := 240

def REVIEW_MINUTES : ℚ := 60

def PODCAST_MINUTES : ℚ := 60

def FLASHCARD_MINUTES : ℚ := 60

def QUIZ_MAX_MINUTES : ℚ := 90

def MAX_BLOCK_DURATION : ℚ := 60

def MIN_BLOCK_DURATION : ℚ := 15

def WEEKLY_MINIMUM_MINUTES : ℚ := 60

/-! ## Budgets and allocator context (`allocator.ts`, overlap V1) -/

/-- Per-unit theory budget. -/
structure UnitTheoryBudget where
  studyThemeRemaining : ℚ
  studyThemeDone : ℚ
  reviewRemaining : ℚ
  podcastRemaining : ℚ
  flashcardRemaining : ℚ
  quizRemaining : ℚ
  totalRemaining : ℚ
  studyThemeComplete : Bool
deriving DecidableEq, Repr

/-- Global allocation budget.  `unitTheoryRemaining` is positional: index i
stands for key "Unidad (i+1)". -/
structure GlobalBudget where
  theoryPlanned : ℚ
  casesPlanned : ℚ
  programmingPlanned : ℚ
  theoryRemaining : ℚ
  casesRemaining : ℚ
  programmingRemaining : ℚ
  casePracticeScheduled : ℚ
  caseMockScheduled : ℚ
  unitTheoryRemaining : List UnitTheoryBudget
deriving DecidableEq, Repr

/-- Allocator context.  Every field that is optional in the source (or that
the source reads through `?.` on a possibly-absent context) is an `Option`. -/
structure AllocatorContext where
  lastWeekCasesMinutes : Option ℚ
  lastWeekProgrammingMinutes : Option ℚ
  thisWeekTheory : Option ℚ
  thisWeekCases : Option ℚ
  thisWeekProg : Option ℚ
  weekRemainingMinutes : Option ℚ
  weekIndex : Option ℚ
  studyThemeTodayUnit : Option Nat
  studyThemeTodayMinutes : Option ℚ
  availableMinutesToday : Option ℚ
  theoryUnitOverride : Option Nat
deriving DecidableEq, Repr

/-- A context with every field absent. -/
def emptyCtx : AllocatorContext :=
  ⟨none, none, none, none, none, none, none, none, none, none, none⟩

/-- Source `sortedUnitKeys`: the keys "Unidad 1" … "Unidad n" in numeric
order, i.e. the positions `0 … n-1`. -/
def sortedUnitKeys (b : GlobalBudget) : List Nat :=
  List.range b.unitTheoryRemaining.length

/-- Source `firstUnitWithRemaining`, returned as the unit's position. -/
def firstUnitWithRemainingIdx (b : GlobalBudget) : Option Nat :=
  (sortedUnitKeys b).find? fun k =>
    decide (0 < ((b.unitTheoryRemaining.get? k).map
      UnitTheoryBudget.totalRemaining).getD 0)

/-- Eligibility test of `firstEligiblePrimaryUnit` for position `k`: has
STUDY_THEME remaining, the previous unit (if any) reached the
start-next-unit threshold, and no other unit is locked today. -/
def primaryEligible (b : GlobalBudget) (locked : Option Nat) (k : Nat) : Bool :=
  match b.unitTheoryRemaining.get? k with
  | none => false
  | some u =>
    if u.studyThemeRemaining ≤ 0 then false
    else
      let prevDone : ℚ :=
        if k = 0 then 0
        else ((b.unitTheoryRemaining.get? (k - 1)).map
          UnitTheoryBudget.studyThemeDone).getD 0
      if k ≠ 0 ∧ prevDone < START_NEXT_UNIT_THRESHOLD then false
      else
        match locked with
        | none => true
        | some l => decide (l = k)

/-- Source `firstEligiblePrimaryUnit`: first unit eligible for STUDY_THEME
today. -/
def firstEligiblePrimaryUnit (b : GlobalBudget) (locked : Option Nat) :
    Option Nat :=
  (sortedUnitKeys b).find? (primaryEligible b locked)

/-- Source `selectSecondaryForUnit`: secondary theory activity
(REVIEW/PODCAST/FLASHCARD/QUIZ) for the unit at position `k`.  The unit must
be activated (`studyThemeDone > 0`) or be today's STUDY_THEME unit; REVIEW
additionally needs `studyThemeDone ≥ 240`. -/
def selectSecondaryForUnit (b : GlobalBudget) (k : Nat)
    (todayUnit : Option Nat) : Option ActivityType :=
  match b.unitTheoryRemaining.get? k with
  | none => none
  | some u =>
    if u.totalRemaining ≤ 0 then none
    else
      let isActivated := 0 < u.studyThemeDone
      let isTodayUnit := todayUnit = some k
      if ¬isActivated ∧ ¬isTodayUnit then none
      else
        let canReview :=
          STUDY_THEME_COMPLETE_THRESHOLD ≤ u.studyThemeDone ∧
            0 < u.reviewRemaining
        if canReview then some .REVIEW
        else if 0 < u.podcastRemaining then some .PODCAST
        else if 0 < u.flashcardRemaining then some .FLASHCARD
        else if 0 < u.quizRemaining then some .QUIZ
        else none

/-- Source `activeUnitKeys`: positions of the units with
`studyThemeDone > 0`, in order. -/
def activeUnitKeys (b : GlobalBudget) : List Nat :=
  (sortedUnitKeys b).filter fun k =>
    decide (0 < ((b.unitTheoryRemaining.get? k).map
      UnitTheoryBudget.studyThemeDone).getD 0)

/-- Loop body of `selectSecondaryWithInterleaving`: scan the candidate order,
return the first secondary found; set `theoryUnitOverride` to the chosen unit
when interleaving away from today's unit, clear it otherwise. -/
def interleaveLoop (b : GlobalBudget) (todayUnit : Option Nat)
    (preferOther : Bool) (ctx : AllocatorContext) :
    List Nat → Option ActivityType × AllocatorContext
  | [] => (none, ctx)
  | k :: rest =>
    match selectSecondaryForUnit b k todayUnit with
    | none => interleaveLoop b todayUnit preferOther ctx rest
    | some act =>
      if preferOther ∧ todayUnit ≠ some k then
        (some act, { ctx with theoryUnitOverride := some k })
      else
        (some act, { ctx with theoryUnitOverride := none })

/-- Source `selectSecondaryWithInterleaving`: prefer a secondary for a unit
other than today's when at least two units are active; only activated units
(plus today's unit, for same-day activation) are considered. -/
def selectSecondaryWithInterleaving (b : GlobalBudget) (todayUnit : Option Nat)
    (ctx : AllocatorContext) : Option ActivityType × AllocatorContext :=
  let active := activeUnitKeys b
  let preferOther := 2 ≤ active.length ∧ todayUnit ≠ none
  let inActivatedSet : Nat → Bool := fun k =>
    decide (k ∈ active) || decide (todayUnit = some k)
  let keys := (sortedUnitKeys b).filter inActivatedSet
  let order :=
    if preferOther then
      keys.filter (fun k => decide (todayUnit ≠ some k)) ++
        keys.filter (fun k => decide (todayUnit = some k))
    else keys
  interleaveLoop b todayUnit (decide preferOther) ctx order

/-- Source `theoryCap`: the daily STUDY_THEME cap. -/
def theoryCap (ctx : AllocatorContext) : ℚ :=
  let avail := ctx.availableMinutesToday.getD 0
  if 240 ≤ avail then ((⌊avail * (1 / 2)⌋ : ℤ) : ℚ)
  else min avail 120

/-- Loop of the final fallback of `selectTheoryActivity` (lines 253-259):
first secondary over the activated units (plus today's unit appended). -/
def finalSecondaryLoop (b : GlobalBudget) (todayUnit : Option Nat)
    (ctx : AllocatorContext) :
    List Nat → Option ActivityType × AllocatorContext
  | [] => (none, ctx)
  | k :: rest =>
    match selectSecondaryForUnit b k todayUnit with
    | none => finalSecondaryLoop b todayUnit ctx rest
    | some act => (some act, { ctx with theoryUnitOverride := none })

/-- Legacy branch of `selectTheoryActivity` (no `availableMinutesToday` in
the context): simple priority on the first unit with remaining. -/
def selectTheoryActivityLegacy (b : GlobalBudget) : Option ActivityType :=
  match firstUnitWithRemainingIdx b with
  | none => none
  | some k =>
    match b.unitTheoryRemaining.get? k with
    | none => none
    | some u =>
      if 0 < u.studyThemeRemaining then some .STUDY_THEME
      else selectSecondaryForUnit b k none

/-- Fallback of `selectTheoryActivity` after the primary branch (source
lines 244-260): interleaving for today's unit, then the first secondary over
the activated units (today's unit appended when not active). -/
def selectTheoryFallback (b : GlobalBudget) (todayUnit : Option Nat)
    (ctx : AllocatorContext) : Option ActivityType × AllocatorContext :=
  let afterInterleave : Option ActivityType × AllocatorContext :=
    match todayUnit with
    | some tu =>
      let r := selectSecondaryWithInterleaving b (some tu) ctx
      r
    | none => (none, ctx)
  match afterInterleave with
  | (some act, ctx1) => (some act, ctx1)
  | (none, ctx1) =>
    let activated := activeUnitKeys b
    let activatedPlus :=
      match todayUnit with
      | some tu => if tu ∈ activated then activated else activated ++ [tu]
      | none => activated
    finalSecondaryLoop b todayUnit ctx1 activatedPlus

/-- Source `selectTheoryActivity` (overlap V1): daily STUDY_THEME cap, one
unit per day, secondary after activation, REVIEW after 240.  Returns the
selected activity together with the updated context (the source mutates
`ctx.studyThemeTodayUnit` and `ctx.theoryUnitOverride` in place). -/
def selectTheoryActivity (b : GlobalBudget) (ctx : AllocatorContext) :
    Option ActivityType × AllocatorContext :=
  match ctx.availableMinutesToday with
  | none => (selectTheoryActivityLegacy b, ctx)
  | some _ =>
    let todayUnit := ctx.studyThemeTodayUnit
    let todayMins := ctx.studyThemeTodayMinutes.getD 0
    if theoryCap ctx ≤ todayMins then
      match todayUnit with
      | none => (none, ctx)
      | some unit =>
        match selectSecondaryWithInterleaving b (some unit) ctx with
        | (some act, ctx1) => (some act, ctx1)
        | (none, ctx1) =>
          let ctx2 := { ctx1 with theoryUnitOverride := none }
          (selectSecondaryForUnit b unit todayUnit, ctx2)
    else
      match firstEligiblePrimaryUnit b ctx.studyThemeTodayUnit with
      | some p =>
        if 0 < ((b.unitTheoryRemaining.get? p).map
            UnitTheoryBudget.studyThemeRemaining).getD 0 then
          let ctx1 :=
            if ctx.studyThemeTodayUnit = none then
              { ctx with studyThemeTodayUnit := some p }
            else ctx
          (some .STUDY_THEME, { ctx1 with theoryUnitOverride := none })
        else selectTheoryFallback b todayUnit ctx
      | none => selectTheoryFallback b todayUnit ctx

/-- Source `currentUnitKey` / `getCurrentUnitKey`: override, else today's
unit, else the first unit with total remaining. -/
def getCurrentUnitKey (b : GlobalBudget) (ctx : AllocatorContext) :
    Option Nat :=
  match ctx.theoryUnitOverride with
  | some k => some k
  | none =>
    match ctx.studyThemeTodayUnit with
    | some k => some k
    | none =>
      (sortedUnitKeys b).find? fun k =>
        decide (0 < ((b.unitTheoryRemaining.get? k).map
          UnitTheoryBudget.totalRemaining).getD 0)

/-- Source `selectCasesActivity`: CASE_PRACTICE until 70 % of the cases
plan is scheduled as practice, then CASE_MOCK. -/
def selectCasesActivity (b : GlobalBudget) : ActivityType :=
  if b.casePracticeScheduled < (7 / 10 : ℚ) * b.casesPlanned then
    .CASE_PRACTICE
  else .CASE_MOCK

/-- Source `selectActivity`: stage A stream selection by greatest remaining
ratio with starvation guardrails; weeks 1-2 are theory-only. -/
def selectActivity (b : GlobalBudget) (weekIndex : ℚ)
    (ctx : AllocatorContext) : Option ActivityType × AllocatorContext :=
  if weekIndex ≤ 2 then selectTheoryActivity b ctx
  else
    let tr := if 0 < b.theoryPlanned then b.theoryRemaining / b.theoryPlanned else 0
    let cr := if 0 < b.casesPlanned then b.casesRemaining / b.casesPlanned else 0
    let pr := if 0 < b.programmingPlanned then b.programmingRemaining / b.programmingPlanned else 0
    let preferCases := ctx.lastWeekCasesMinutes = some 0 ∧ 0 < b.casesRemaining
    let preferProg := ctx.lastWeekProgrammingMinutes = some 0 ∧ 0 < b.programmingRemaining
    if preferCases ∧ 0 < cr then (some (selectCasesActivity b), ctx)
    else if ¬(preferCases ∧ 0 < cr) ∧ preferProg ∧ 0 < pr then
      (some .PROGRAMMING_BLOCK, ctx)
    else
      let best := max tr (max cr pr)
      if best ≤ 0 then (none, ctx)
      else if tr = best ∧ 0 < b.theoryRemaining then selectTheoryActivity b ctx
      else if cr = best ∧ 0 < b.casesRemaining then (some (selectCasesActivity b), ctx)
      else if pr = best ∧ 0 < b.programmingRemaining then (some .PROGRAMMING_BLOCK, ctx)
      else (none, ctx)

/-- Source `selectActivityWithSmoothing`: weekly minimum presence and
end-of-week forcing on top of `selectActivity`. -/
def selectActivityWithSmoothing (b : GlobalBudget) (ctx : AllocatorContext) :
    Option ActivityType × AllocatorContext :=
  let wi := ctx.weekIndex.getD 0
  if wi ≤ 2 then selectTheoryActivity b ctx
  else
    let tw := ctx.thisWeekTheory.getD 0
    let cw := ctx.thisWeekCases.getD 0
    let pw := ctx.thisWeekProg.getD 0
    let wr := ctx.weekRemainingMinutes.getD 0
    let missingTheory := tw < WEEKLY_MINIMUM_MINUTES ∧ 0 < b.theoryRemaining
    let missingCases := cw < WEEKLY_MINIMUM_MINUTES ∧ 0 < b.casesRemaining
    let missingProg := pw < WEEKLY_MINIMUM_MINUTES ∧ 0 < b.programmingRemaining
    if wr ≤ 120 ∧ missingCases then (some (selectCasesActivity b), ctx)
    else if wr ≤ 120 ∧ missingProg then (some .PROGRAMMING_BLOCK, ctx)
    else if wr ≤ 120 ∧ missingTheory then selectTheoryActivity b ctx
    else if missingCases ∧ cw ≤ tw ∧ cw ≤ pw then
      (some (selectCasesActivity b), ctx)
    else if missingProg ∧ pw ≤ tw ∧ pw ≤ cw then (some .PROGRAMMING_BLOCK, ctx)
    else if missingTheory ∧ tw ≤ cw ∧ tw ≤ pw then selectTheoryActivity b ctx
    else selectActivity b wi ctx

/-- Update one position of a list (TS record update at key "Unidad (k+1)");
out-of-range positions leave the list unchanged. -/
def modifyIdx (f : UnitTheoryBudget → UnitTheoryBudget) :
    Nat → List UnitTheoryBudget → List UnitTheoryBudget
  | _, [] => []
  | 0, u :: us => f u :: us
  | n + 1, u :: us => u :: modifyIdx f n us

/-- The unit `updateGlobalBudget` resolves:
`unitOverride ?? currentUnitKey(budget, ctx)`. -/
def resolveUnitFor (b : GlobalBudget) (ctx : AllocatorContext)
    (unitOverride : Option Nat) : Option Nat :=
  match unitOverride with
  | some k => some k
  | none => getCurrentUnitKey b ctx

/-- Source `updateGlobalBudget`: commit `minutes` of `activity` against the
budget.  Stream-level remaining is decremented directly; per-unit remaining
fields are clamped at 0 with `Math.max`. -/
def updateGlobalBudget (b : GlobalBudget) (activity : ActivityType)
    (minutes : ℚ) (unitOverride : Option Nat) (ctx : AllocatorContext) :
    GlobalBudget :=
  let resolveUnit : Option Nat := resolveUnitFor b ctx unitOverride
  match activity with
  | .STUDY_THEME =>
    let b1 := { b with theoryRemaining := b.theoryRemaining - minutes }
    match resolveUnit with
    | none => b1
    | some k =>
      { b1 with
        unitTheoryRemaining := modifyIdx (fun u =>
          let str := max 0 (u.studyThemeRemaining - minutes)
          { u with
            studyThemeRemaining := str
            studyThemeDone := u.studyThemeDone + minutes
            totalRemaining := max 0 (u.totalRemaining - minutes)
            studyThemeComplete := if str ≤ 0 then true else u.studyThemeComplete })
          k b1.unitTheoryRemaining }
  | .REVIEW =>
    let b1 := { b with theoryRemaining := b.theoryRemaining - minutes }
    match resolveUnit with
    | none => b1
    | some k =>
      { b1 with
        unitTheoryRemaining := modifyIdx (fun u =>
          { u with
            reviewRemaining := max 0 (u.reviewRemaining - minutes)
            totalRemaining := max 0 (u.totalRemaining - minutes) })
          k b1.unitTheoryRemaining }
  | .PODCAST =>
    let b1 := { b with theoryRemaining := b.theoryRemaining - minutes }
    match resolveUnit with
    | none => b1
    | some k =>
      { b1 with
        unitTheoryRemaining := modifyIdx (fun u =>
          { u with
            podcastRemaining := max 0 (u.podcastRemaining - minutes)
            totalRemaining := max 0 (u.totalRemaining - minutes) })
          k b1.unitTheoryRemaining }
  | .FLASHCARD =>
    let b1 := { b with theoryRemaining := b.theoryRemaining - minutes }
    match resolveUnit with
    | none => b1
    | some k =>
      { b1 with
        unitTheoryRemaining := modifyIdx (fun u =>
          { u with
            flashcardRemaining := max 0 (u.flashcardRemaining - minutes)
            totalRemaining := max 0 (u.totalRemaining - minutes) })
          k b1.unitTheoryRemaining }
  | .QUIZ =>
    let b1 := { b with theoryRemaining := b.theoryRemaining - minutes }
    match resolveUnit with
    | none => b1
    | some k =>
      { b1 with
        unitTheoryRemaining := modifyIdx (fun u =>
          { u with
            quizRemaining := max 0 (u.quizRemaining - minutes)
            totalRemaining := max 0 (u.totalRemaining - minutes) })
          k b1.unitTheoryRemaining }
  | .CASE_PRACTICE =>
    { b with
      casesRemaining := b.casesRemaining - minutes
      casePracticeScheduled := b.casePracticeScheduled + minutes }
  | .CASE_MOCK =>
    { b with
      casesRemaining := b.casesRemaining - minutes
      caseMockScheduled := b.caseMockScheduled + minutes }
  | .PROGRAMMING_BLOCK =>
    { b with programmingRemaining := b.programmingRemaining - minutes }

/-! ## Capacity (`src/lib/engine/capacity.ts`) -/

/-- Buffer / slack status tiers. -/
inductive BufferStatus where
  | good
  | edge
  | warning
deriving DecidableEq, Repr

/-- Form inputs (the fields the engine reads). -/
structure FormInputs where
  examDate : DateISO
  availabilityHoursByWeekday : List ℚ
  presentedBefore : Bool
  alreadyStudying : Bool
  region : String
  stage : String
  themesCount : Option Nat
  planProgramming : Option Bool
deriving DecidableEq, Repr

/-- Derived plan capacity. -/
structure PlanCapacity where
  totalWeeks : Int
  effectivePlanningWeeks : Int
  availableEffectiveMinutes : ℚ
  unitsCount : Nat
  theoryPlanned : ℚ
  casesPlanned : ℚ
  programmingPlanned : ℚ
  plannedMinutes : ℚ
  bufferMinutes : ℚ
  bufferRatioV : ℚ
  bufferStatus : BufferStatus
deriving DecidableEq, Repr

/-- Availability hours for a given date (`inputs.availabilityHoursByWeekday[idx] ?? 0`). -/
def hoursForDate (inputs : FormInputs) (d : DateISO) : ℚ :=
  inputs.availabilityHoursByWeekday.getD (availabilityIndex (getWeekday d)) 0

/-- Source `calculateCapacity`.  The `todayISO` of the options is passed
explicitly (the source falls back to the wall clock when absent). -/
def calculateCapacity (inputs : FormInputs) (todayISO : DateISO) :
    PlanCapacity :=
  let totalDays := diffDays todayISO inputs.examDate
  let totalWeeks : Int := ⌈(totalDays : ℚ) / 7⌉
  let effectivePlanningWeeks : Int := max 0 (totalWeeks - 2)
  let planningDays : Nat := (effectivePlanningWeeks * 7).toNat
  let availableEffectiveMinutes : ℚ :=
    ((List.range planningDays).map fun d =>
      hoursForDate inputs (addDays todayISO d) * 60).sum
  let unitsCount : Nat := inputs.themesCount.getD 20
  let theoryPlanned : ℚ := unitsCount * THEORY_ENVELOPE_MINUTES
  let casesPlanned : ℚ := ((⌊theoryPlanned * (3 / 5)⌋ : ℤ) : ℚ)
  let programmingPlanned : ℚ := ((⌊theoryPlanned * (2 / 5)⌋ : ℤ) : ℚ)
  let plannedMinutes := theoryPlanned + casesPlanned + programmingPlanned
  let bufferMinutes := availableEffectiveMinutes - plannedMinutes
  let bufferRatioV : ℚ :=
    if 0 < availableEffectiveMinutes then bufferMinutes / availableEffectiveMinutes
    else 0
  let bufferStatus : BufferStatus :=
    if (2 / 10 : ℚ) ≤ bufferRatioV then .good
    else if (1 / 10 : ℚ) ≤ bufferRatioV then .edge
    else .warning
  { totalWeeks := totalWeeks
    effectivePlanningWeeks := effectivePlanningWeeks
    availableEffectiveMinutes := availableEffectiveMinutes
    unitsCount := unitsCount
    theoryPlanned := theoryPlanned
    casesPlanned := casesPlanned
    programmingPlanned := programmingPlanned
    plannedMinutes := plannedMinutes
    bufferMinutes := bufferMinutes
    bufferRatioV := bufferRatioV
    bufferStatus := bufferStatus }

/-! ## Student state and feedback (`src/lib/engine/state.ts`) -/

/-- Per-unit activity minutes. -/
structure UnitMinutes where
  studyTheme : ℚ
  review : ℚ
  podcast : ℚ
  flashcard : ℚ
  quiz : ℚ
deriving DecidableEq, Repr

/-- Per-unit state; the `unitId` "Unidad (i+1)" is the position `i`. -/
structure UnitState where
  required : UnitMinutes
  done : UnitMinutes
deriving DecidableEq, Repr

/-- Global non-unit state. -/
structure GlobalState where
  casesRequired : ℚ
  casesDone : ℚ
  programmingRequired : ℚ
  programmingDone : ℚ
deriving DecidableEq, Repr

/-- Slack information. -/
structure SlackInfo where
  effectiveCapacityFuture : ℚ
  requiredMinutesFuture : ℚ
  slackMinutes : ℚ
  slackRatioV : ℚ
  status : BufferStatus
deriving DecidableEq, Repr

/-- Block-duration preferences: `targetMinutesByActivity`, one entry per
activity tag of the closed set. -/
structure Preferences where
  studyTheme : ℚ
  review : ℚ
  podcast : ℚ
  flashcard : ℚ
  quiz : ℚ
  casePractice : ℚ
  caseMock : ℚ
  programmingBlock : ℚ
deriving DecidableEq, Repr

/-- Look up `prefs.targetMinutesByActivity[activity]`. -/
def Preferences.targetFor (p : Preferences) : ActivityType → ℚ
  | .STUDY_THEME => p.studyTheme
  | .REVIEW => p.review
  | .PODCAST => p.podcast
  | .FLASHCARD => p.flashcard
  | .QUIZ => p.quiz
  | .CASE_PRACTICE => p.casePractice
  | .CASE_MOCK => p.caseMock
  | .PROGRAMMING_BLOCK => p.programmingBlock

/-- Write `prefs.targetMinutesByActivity[activity] = v`. -/
def Preferences.setTarget (p : Preferences) (a : ActivityType) (v : ℚ) :
    Preferences :=
  match a with
  | .STUDY_THEME => { p with studyTheme := v }
  | .REVIEW => { p with review := v }
  | .PODCAST => { p with podcast := v }
  | .FLASHCARD => { p with flashcard := v }
  | .QUIZ => { p with quiz := v }
  | .CASE_PRACTICE => { p with casePractice := v }
  | .CASE_MOCK => { p with caseMock := v }
  | .PROGRAMMING_BLOCK => { p with programmingBlock := v }

/-- State metadata; `createdAt` is the wall-clock timestamp. -/
structure StateMeta where
  version : Nat
  createdAt : Int
  todayISO : DateISO
  examDate : DateISO
deriving DecidableEq, Repr

/-- Full student state. -/
structure StudentState where
  meta : StateMeta
  units : List UnitState
  global : GlobalState
  slack : SlackInfo
  prefs : Preferences
deriving DecidableEq, Repr

def QUIZ_FAIL_THRESHOLD : ℚ := 60

def REVIEW_BOOST_MINUTES : ℚ := 30

def SESSION_FEEDBACK_STEP : ℚ := 15

/-- Source `ACTIVITY_TARGET_DEFAULTS`. -/
def ACTIVITY_TARGET_DEFAULTS : Preferences :=
  { studyTheme := 60
    review := 30
    podcast := 60
    flashcard := 30
    quiz := 15
    casePractice := 60
    caseMock := 60
    programmingBlock := 60 }

/-- Source `ACTIVITY_BOUNDS`, lower bound. -/
def activityBoundMin : ActivityType → ℚ
  | .STUDY_THEME => 30
  | .REVIEW => 15
  | .PODCAST => 30
  | .FLASHCARD => 15
  | .QUIZ => 10
  | .CASE_PRACTICE => 30
  | .CASE_MOCK => 30
  | .PROGRAMMING_BLOCK => 30

/-- Source `ACTIVITY_BOUNDS`, upper bound. -/
def activityBoundMax : ActivityType → ℚ
  | .STUDY_THEME => 90
  | .REVIEW => 60
  | .PODCAST => 90
  | .FLASHCARD => 60
  | .QUIZ => 30
  | .CASE_PRACTICE => 90
  | .CASE_MOCK => 90
  | .PROGRAMMING_BLOCK => 90

/-- Session-feedback feel. -/
inductive SessionFeel where
  | too_much
  | ok
  | more
deriving DecidableEq, Repr

/-- Feedback events.  Unit references are positions ("Unidad (k+1)" is `k`);
an unknown unit name is a position outside the unit list (or `none`). -/
inductive FeedbackEvent where
  | quizResult (dateISO : DateISO) (unit : Option Nat) (score : ℚ)
  | blockCompleted (dateISO : DateISO) (blockId : String)
      (activity : ActivityType) (unit : Option Nat) (completedMinutes : ℚ)
  | sessionFeedback (dateISO : DateISO) (blockId : String)
      (activity : ActivityType) (feel : SessionFeel)
deriving DecidableEq

/-- Source `computeTotalRequired`. -/
def computeTotalRequired (s : StudentState) : ℚ :=
  (s.units.map fun u =>
    u.required.studyTheme + u.required.review + u.required.podcast +
      u.required.flashcard + u.required.quiz).sum +
    s.global.casesRequired + s.global.programmingRequired

/-- Source `computeTotalDone`. -/
def computeTotalDone (s : StudentState) : ℚ :=
  (s.units.map fun u =>
    u.done.studyTheme + u.done.review + u.done.podcast +
      u.done.flashcard + u.done.quiz).sum +
    s.global.casesDone + s.global.programmingDone

/-- Source `computeSlack`. -/
def computeSlack (effectiveCapacity requiredTotal doneTotal : ℚ) : SlackInfo :=
  let requiredFuture := max 0 (requiredTotal - doneTotal)
  let slackMinutes := effectiveCapacity - requiredFuture
  let slackRatioV := if 0 < effectiveCapacity then slackMinutes / effectiveCapacity else 0
  let status : BufferStatus :=
    if (2 / 10 : ℚ) ≤ slackRatioV then .good
    else if (1 / 10 : ℚ) ≤ slackRatioV then .edge
    else .warning
  { effectiveCapacityFuture := effectiveCapacity
    requiredMinutesFuture := requiredFuture
    slackMinutes := slackMinutes
    slackRatioV := slackRatioV
    status := status }

/-- The unit ledger `deriveInitialState` builds for every unit: baseline
required minutes, done all zero. -/
def initialUnitState : UnitState :=
  { required :=
      { studyTheme := STUDY_THEME_MINUTES
        review := REVIEW_MINUTES
        podcast := PODCAST_MINUTES
        flashcard := FLASHCARD_MINUTES
        quiz := QUIZ_MAX_MINUTES }
    done := { studyTheme := 0, review := 0, podcast := 0, flashcard := 0, quiz := 0 } }

/-- Source `deriveInitialState`.  `now` is the wall-clock value the source
reads for `meta.createdAt`. -/
def deriveInitialState (inputs : FormInputs) (capacity : PlanCapacity)
    (todayISO : DateISO) (now : Int) : StudentState :=
  let units := List.replicate capacity.unitsCount initialUnitState
  let global : GlobalState :=
    { casesRequired := capacity.casesPlanned
      casesDone := 0
      programmingRequired := capacity.programmingPlanned
      programmingDone := 0 }
  let baseState : StudentState :=
    { meta :=
        { version := 1
          createdAt := now
          todayISO := todayISO
          examDate := inputs.examDate }
      units := units
      global := global
      slack :=
        { effectiveCapacityFuture := 0
          requiredMinutesFuture := 0
          slackMinutes := 0
          slackRatioV := 0
          status := .warning }
      prefs := ACTIVITY_TARGET_DEFAULTS }
  { baseState with
    slack := computeSlack capacity.availableEffectiveMinutes
      (computeTotalRequired baseState) (computeTotalDone baseState) }

/-- Update one position of the unit-state list; out-of-range positions (an
unknown unit) leave the list unchanged, matching the source's silent skip. -/
def modifyUnitState (f : UnitState → UnitState) :
    Nat → List UnitState → List UnitState
  | _, [] => []
  | 0, u :: us => f u :: us
  | n + 1, u :: us => u :: modifyUnitState f n us

/-- Add the review boost to a unit's required review minutes
(failing QUIZ_RESULT). -/
def boostRequiredReview (u : UnitState) : UnitState :=
  let req := u.required
  { u with required := { req with review := req.review + REVIEW_BOOST_MINUTES } }

/-- Add completed minutes to the done counter of one theory activity.  The
addition is unclamped, exactly as in the source. -/
def addDoneMinutes (a : ActivityType) (m : ℚ) (u : UnitState) : UnitState :=
  let d := u.done
  match a with
  | .STUDY_THEME => { u with done := { d with studyTheme := d.studyTheme + m } }
  | .REVIEW => { u with done := { d with review := d.review + m } }
  | .PODCAST => { u with done := { d with podcast := d.podcast + m } }
  | .FLASHCARD => { u with done := { d with flashcard := d.flashcard + m } }
  | .QUIZ => { u with done := { d with quiz := d.quiz + m } }
  | _ => u

/-- Is the activity one of the five per-unit theory activities? -/
def isTheoryActivity : ActivityType → Bool
  | .STUDY_THEME => true
  | .REVIEW => true
  | .PODCAST => true
  | .FLASHCARD => true
  | .QUIZ => true
  | _ => false

/-- The counter of a `UnitMinutes` ledger matching a per-unit theory
activity (the field the source's `switch (activity)` addresses). -/
def doneFor : ActivityType → UnitMinutes → ℚ
  | .STUDY_THEME, d => d.studyTheme
  | .REVIEW, d => d.review
  | .PODCAST, d => d.podcast
  | .FLASHCARD, d => d.flashcard
  | .QUIZ, d => d.quiz
  | _, _ => 0

/-- One step of the `applyFeedbackEvents` fold. -/
def applyOneEvent (s : StudentState) (e : FeedbackEvent) : StudentState :=
  match e with
  | .quizResult _ unit score =>
    match unit with
    | none => s
    | some k =>
      if k < s.units.length then
        if score < QUIZ_FAIL_THRESHOLD then
          { s with units := modifyUnitState boostRequiredReview k s.units }
        else s
      else s
  | .blockCompleted _ _ activity unit completedMinutes =>
    let minutes : ℚ := ((max 0 ⌊completedMinutes⌋ : ℤ) : ℚ)
    if minutes = 0 then s
    else if isTheoryActivity activity then
      match unit with
      | none => s
      | some k =>
        if k < s.units.length then
          { s with units := modifyUnitState (addDoneMinutes activity minutes) k s.units }
        else s
    else
      match activity with
      | .CASE_PRACTICE =>
        { s with global := { s.global with casesDone := s.global.casesDone + minutes } }
      | .CASE_MOCK =>
        { s with global := { s.global with casesDone := s.global.casesDone + minutes } }
      | .PROGRAMMING_BLOCK =>
        { s with global :=
          { s.global with programmingDone := s.global.programmingDone + minutes } }
      | _ => s
  | .sessionFeedback _ _ activity feel =>
    let current := s.prefs.targetFor activity
    let newTarget :=
      match feel with
      | .too_much => current - SESSION_FEEDBACK_STEP
      | .more => current + SESSION_FEEDBACK_STEP
      | .ok => current
    let clamped := max (activityBoundMin activity) (min (activityBoundMax activity) newTarget)
    { s with prefs := s.prefs.setTarget activity clamped }

/-- Source `applyFeedbackEvents`: fold the events over a (deep-cloned) state
and recompute slack against the original effective capacity. -/
def applyFeedbackEvents (s : StudentState) (events : List FeedbackEvent) :
    StudentState :=
  let newState := events.foldl applyOneEvent s
  { newState with
    slack := computeSlack s.slack.effectiveCapacityFuture
      (computeTotalRequired newState) (computeTotalDone newState) }

/-! ## Plan, day builder, replanner

The source of `generatePlanFromState` and of the overlap-V1 day builder is
not part of the repository snapshot (only its tests and callers are); the
definitions below are modelled from the specification, sections 3 ("Plan",
"StudyBlock", "DayPlan"), 4.4 (day builder) and 4.5 (replanner). -/

/-- The three content streams. -/
inductive StreamTag where
  | theory
  | cases
  | programming
deriving DecidableEq, Repr

/-- Stream membership of an activity (specification section 6). -/
def streamOf : ActivityType → StreamTag
  | .STUDY_THEME => .theory
  | .REVIEW => .theory
  | .PODCAST => .theory
  | .FLASHCARD => .theory
  | .QUIZ => .theory
  | .CASE_PRACTICE => .cases
  | .CASE_MOCK => .cases
  | .PROGRAMMING_BLOCK => .programming

/-- The closed phase tag set. -/
inductive SelviaPhase where
  | P1_CONTEXT
  | P2_DEPTH
  | P3_EVAL_REVIEW
  | P4_PRACTICE
deriving DecidableEq, Repr

/-- Fixed activity-to-phase map (specification section 6). -/
def phaseOf : ActivityType → SelviaPhase
  | .STUDY_THEME => .P2_DEPTH
  | .REVIEW => .P3_EVAL_REVIEW
  | .PODCAST => .P2_DEPTH
  | .FLASHCARD => .P3_EVAL_REVIEW
  | .QUIZ => .P3_EVAL_REVIEW
  | .CASE_PRACTICE => .P4_PRACTICE
  | .CASE_MOCK => .P4_PRACTICE
  | .PROGRAMMING_BLOCK => .P4_PRACTICE

/-- Modelled from the spec: the deterministic block id
`"${dateISO}__${index}__${activity}__${unit ?? NA}"`, kept as its four
components instead of the concatenated string. -/
structure BlockId where
  dateISO : DateISO
  indexInDay : Nat
  activity : ActivityType
  unit : Option Nat
deriving DecidableEq, Repr

/-- A scheduled study block. -/
structure StudyBlock where
  id : BlockId
  activity : ActivityType
  unit : Option Nat
  durationMinutes : ℚ
  selviaPhase : SelviaPhase
deriving DecidableEq, Repr

/-- One day of the plan. -/
structure DayPlan where
  date : DateISO
  weekday : Int
  totalHours : ℚ
  blocks : List StudyBlock
deriving DecidableEq, Repr

/-- Plan metadata; `generatedAt` is the wall-clock read. -/
structure PlanMeta where
  generatedAt : Int
  today : DateISO
  examDate : DateISO
  region : String
  stage : String
  unitsTotal : Nat
deriving DecidableEq, Repr

/-- Debug totals per stream. -/
structure PlanDebugInfo where
  totalScheduled : ℚ
  theoryScheduled : ℚ
  casesScheduled : ℚ
  programmingScheduled : ℚ
deriving DecidableEq, Repr

/-- A generated plan. -/
structure Plan where
  meta : PlanMeta
  days : List DayPlan
  debugInfo : PlanDebugInfo
deriving DecidableEq, Repr

/-- Modelled from the spec: `createBudgetFromState` (not in the snapshot;
section 4.5: remaining = required − done, `studyThemeDone` starts at the
historical done; section 7: negative computed values are forced to 0). -/
def createBudgetFromState (s : StudentState) (capacity : PlanCapacity) :
    GlobalBudget :=
  let unitBudget : UnitState → UnitTheoryBudget := fun u =>
    let str := max 0 (u.required.studyTheme - u.done.studyTheme)
    let rr := max 0 (u.required.review - u.done.review)
    let pr := max 0 (u.required.podcast - u.done.podcast)
    let fr := max 0 (u.required.flashcard - u.done.flashcard)
    let qr := max 0 (u.required.quiz - u.done.quiz)
    { studyThemeRemaining := str
      studyThemeDone := u.done.studyTheme
      reviewRemaining := rr
      podcastRemaining := pr
      flashcardRemaining := fr
      quizRemaining := qr
      totalRemaining := str + rr + pr + fr + qr
      studyThemeComplete := decide (str ≤ 0) }
  let unitBudgets := s.units.map unitBudget
  { theoryPlanned := capacity.theoryPlanned
    casesPlanned := capacity.casesPlanned
    programmingPlanned := capacity.programmingPlanned
    theoryRemaining := (unitBudgets.map UnitTheoryBudget.totalRemaining).sum
    casesRemaining := max 0 (s.global.casesRequired - s.global.casesDone)
    programmingRemaining := max 0 (s.global.programmingRequired - s.global.programmingDone)
    casePracticeScheduled := 0
    caseMockScheduled := 0
    unitTheoryRemaining := unitBudgets }

/-- Generator state carried across days: the budget, the per-week stream
counters, last week's cases/programming minutes, and the per-stream totals. -/
structure GenState where
  budget : GlobalBudget
  thisWeekTheory : ℚ
  thisWeekCases : ℚ
  thisWeekProg : ℚ
  lastWeekCases : ℚ
  lastWeekProg : ℚ
  theoryScheduled : ℚ
  casesScheduled : ℚ
  programmingScheduled : ℚ
deriving DecidableEq, Repr

/-- Per-day mutable state of the day builder. -/
structure DayState where
  g : GenState
  todayUnit : Option Nat
  todayMins : ℚ
  unitOv : Option Nat
  remaining : ℚ
  idx : Nat
deriving DecidableEq, Repr

/-- Modelled from the spec: the allocator context the day builder passes on
each call (section 4.3 "Context"). -/
def mkCtx (g : GenState) (wi : Nat) (weekRem avail : ℚ)
    (todayUnit : Option Nat) (todayMins : ℚ) (unitOv : Option Nat) :
    AllocatorContext :=
  { lastWeekCasesMinutes := some g.lastWeekCases
    lastWeekProgrammingMinutes := some g.lastWeekProg
    thisWeekTheory := some g.thisWeekTheory
    thisWeekCases := some g.thisWeekCases
    thisWeekProg := some g.thisWeekProg
    weekRemainingMinutes := some weekRem
    weekIndex := some (wi : ℚ)
    studyThemeTodayUnit := todayUnit
    studyThemeTodayMinutes := some todayMins
    availableMinutesToday := some avail
    theoryUnitOverride := unitOv }

/-- Modelled from the spec: commit one block (section 4.4 steps 5c-5d):
resolve the attribution unit for theory streams through `getCurrentUnitKey`,
update the budget, the stream totals, the weekly counters and the daily
STUDY_THEME minutes. -/
def commitOne (date : DateISO) (act : ActivityType) (dur : ℚ)
    (ctx2 : AllocatorContext) (st : DayState) : StudyBlock × DayState :=
  let unitAttr : Option Nat :=
    if streamOf act = .theory then getCurrentUnitKey st.g.budget ctx2 else none
  let budget1 := updateGlobalBudget st.g.budget act dur unitAttr ctx2
  let g1 :=
    match streamOf act with
    | .theory =>
      { st.g with
        budget := budget1
        theoryScheduled := st.g.theoryScheduled + dur
        thisWeekTheory := st.g.thisWeekTheory + dur }
    | .cases =>
      { st.g with
        budget := budget1
        casesScheduled := st.g.casesScheduled + dur
        thisWeekCases := st.g.thisWeekCases + dur }
    | .programming =>
      { st.g with
        budget := budget1
        programmingScheduled := st.g.programmingScheduled + dur
        thisWeekProg := st.g.thisWeekProg + dur }
  let blk : StudyBlock :=
    { id := ⟨date, st.idx, act, unitAttr⟩
      activity := act
      unit := unitAttr
      durationMinutes := dur
      selviaPhase := phaseOf act }
  (blk,
    { g := g1
      todayUnit := ctx2.studyThemeTodayUnit
      todayMins := st.todayMins + (if act = .STUDY_THEME then dur else 0)
      unitOv := ctx2.theoryUnitOverride
      remaining := st.remaining - dur
      idx := st.idx + 1 })

/-- Modelled from the spec: the chosen block duration for the main drain
(section 4.4 step 5b plus the preference rule: `min(60, remaining)`, further
reduced by the activity's preference-derived target clamped into
`[MIN_BLOCK_DURATION, MAX_BLOCK_DURATION]`). -/
def blockDuration (prefs : Preferences) (act : ActivityType)
    (remaining : ℚ) : ℚ :=
  min (min MAX_BLOCK_DURATION remaining)
    (max MIN_BLOCK_DURATION (min MAX_BLOCK_DURATION (prefs.targetFor act)))

/-- Modelled from the spec: the main drain of a day (section 4.4 step 5):
while at least 60 minutes remain, ask the allocator for the next activity
and emit a block; stop when it returns null.  Structural fuel bounds the
iteration count. -/
def drainMain (prefs : Preferences) (date : DateISO) (wi : Nat)
    (futureWeek avail : ℚ) :
    Nat → DayState → List StudyBlock × DayState
  | 0, st => ([], st)
  | fuel + 1, st =>
    if st.remaining < 60 then ([], st)
    else
      let ctx := mkCtx st.g wi (st.remaining + futureWeek) avail
        st.todayUnit st.todayMins st.unitOv
      match selectActivityWithSmoothing st.g.budget ctx with
      | (none, _) => ([], st)
      | (some act, ctx2) =>
        let dur := blockDuration prefs act st.remaining
        let bs := commitOne date act dur ctx2 st
        let rest := drainMain prefs date wi futureWeek avail fuel bs.2
        (bs.1 :: rest.1, rest.2)

/-- Modelled from the spec: a single trailing allocator call (section 4.4
steps 6 and 7): the block takes all remaining minutes. -/
def tailCall (date : DateISO) (wi : Nat) (futureWeek avail : ℚ)
    (st : DayState) : List StudyBlock × DayState :=
  let ctx := mkCtx st.g wi (st.remaining + futureWeek) avail
    st.todayUnit st.todayMins st.unitOv
  match selectActivityWithSmoothing st.g.budget ctx with
  | (none, _) => ([], st)
  | (some act, ctx2) =>
    let bs := commitOne date act st.remaining ctx2 st
    ([bs.1], bs.2)

/-- A day with no blocks. -/
def emptyDay (date : DateISO) : DayPlan :=
  { date := date, weekday := getWeekday date, totalHours := 0, blocks := [] }

/-- Modelled from the spec: build one day (section 4.4): below 15 available
minutes the day is empty; below 60 a single allocator call fills the day;
otherwise the main drain runs, followed by the 15-59-minute tail. -/
def buildDay (prefs : Preferences) (g : GenState) (date : DateISO) (wi : Nat)
    (futureWeek avail : ℚ) : DayPlan × GenState :=
  if avail < MIN_BLOCK_DURATION then (emptyDay date, g)
  else
    let st0 : DayState := ⟨g, none, 0, none, avail, 0⟩
    let r :=
      if avail < 60 then tailCall date wi futureWeek avail st0
      else
        let fuel := (⌊avail⌋.toNat / 15) + 2
        let m := drainMain prefs date wi futureWeek avail fuel st0
        if MIN_BLOCK_DURATION ≤ m.2.remaining ∧ m.2.remaining < 60 then
          let t := tailCall date wi futureWeek avail m.2
          (m.1 ++ t.1, t.2)
        else m
    ({ date := date
       weekday := getWeekday date
       totalHours := (r.1.map StudyBlock.durationMinutes).sum / 60
       blocks := r.1 },
      r.2.g)

/-- Availability of a date in minutes, rounded to nearest (section 4.4
step 1). -/
def dayAvailableMinutes (inputs : FormInputs) (date : DateISO) : ℚ :=
  ((round (hoursForDate inputs date * 60) : ℤ) : ℚ)

/-- 1-based week index of day offset `d`. -/
def weekIndexOfDay (d : Nat) : Nat := d / 7 + 1

/-- Availability (rounded minutes) of the remaining days of day `d`'s week,
after `d`, within the plan horizon. -/
def weekFutureMinutes (inputs : FormInputs) (today : DateISO)
    (totalDays d : Nat) : ℚ :=
  let weekEnd := (d / 7 + 1) * 7
  (((List.range (min weekEnd totalDays)).filter fun j => d < j).map fun j =>
    dayAvailableMinutes inputs (addDays today j)).sum

/-- Modelled from the spec: week-start transition (section 4.4 "Weekly
trackers"): archive the finished week into the last-week counters and reset
the this-week counters. -/
def rotateWeek (g : GenState) : GenState :=
  { g with
    lastWeekCases := g.thisWeekCases
    lastWeekProg := g.thisWeekProg
    thisWeekTheory := 0
    thisWeekCases := 0
    thisWeekProg := 0 }

/-- Modelled from the spec: the day loop (section 4.4): for each day offset
in `[0, daysUntilExam)`, rotate the weekly trackers at week starts, emit an
empty day past the effective planning window, otherwise build the day. -/
def buildDays (inputs : FormInputs) (prefs : Preferences)
    (capacity : PlanCapacity) (today : DateISO) (totalDays : Nat) :
    Nat → Nat → GenState → List DayPlan × GenState
  | 0, _, g => ([], g)
  | daysLeft + 1, d, g =>
    let g1 := if d % 7 = 0 ∧ d ≠ 0 then rotateWeek g else g
    let date := addDays today d
    let wi := weekIndexOfDay d
    let dg :=
      if capacity.effectivePlanningWeeks < (wi : Int) then (emptyDay date, g1)
      else
        buildDay prefs g1 date wi
          (weekFutureMinutes inputs today totalDays d)
          (dayAvailableMinutes inputs date)
    let rest := buildDays inputs prefs capacity today totalDays daysLeft (d + 1) dg.2
    (dg.1 :: rest.1, rest.2)

/-- Modelled from the spec: `generatePlanFromState` (section 4.5): convert
the student state to a global budget, run the day builder over
`[0, daysUntilExam)` and assemble the plan.  `now` is the wall-clock value
read for `meta.generatedAt` (the only clock read). -/
def generatePlanFromState (inputs : FormInputs) (s : StudentState)
    (todayISO : DateISO) (now : Int) : Plan :=
  let capacity := calculateCapacity inputs todayISO
  let budget := createBudgetFromState s capacity
  let g0 : GenState := ⟨budget, 0, 0, 0, 0, 0, 0, 0, 0⟩
  let totalDays := (diffDays todayISO inputs.examDate).toNat
  let dg := buildDays inputs s.prefs capacity todayISO totalDays totalDays 0 g0
  { meta :=
      { generatedAt := now
        today := todayISO
        examDate := inputs.examDate
        region := inputs.region
        stage := inputs.stage
        unitsTotal := capacity.unitsCount }
    days := dg.1
    debugInfo :=
      { totalScheduled :=
          dg.2.theoryScheduled + dg.2.casesScheduled + dg.2.programmingScheduled
        theoryScheduled := dg.2.theoryScheduled
        casesScheduled := dg.2.casesScheduled
        programmingScheduled := dg.2.programmingScheduled } }


/-! ## Helper definitions for the claims -/

/-- Per-unit-activity remaining, for stating the secondary gating rules. -/
def secondaryRemainingFor : ActivityType → UnitTheoryBudget → ℚ
  | .REVIEW, u => u.reviewRemaining
  | .PODCAST, u => u.podcastRemaining
  | .FLASHCARD, u => u.flashcardRemaining
  | .QUIZ, u => u.quizRemaining
  | _, _ => 0

/-- Every remaining field of a per-unit budget is non-negative. -/
def unitNonneg (u : UnitTheoryBudget) : Prop :=
  0 ≤ u.studyThemeRemaining ∧ 0 ≤ u.reviewRemaining ∧ 0 ≤ u.podcastRemaining ∧
    0 ≤ u.flashcardRemaining ∧ 0 ≤ u.quizRemaining ∧ 0 ≤ u.totalRemaining

/-- Componentwise order on per-unit minute ledgers. -/
def unitMinutesLe (a b : UnitMinutes) : Prop :=
  a.studyTheme ≤ b.studyTheme ∧ a.review ≤ b.review ∧ a.podcast ≤ b.podcast ∧
    a.flashcard ≤ b.flashcard ∧ a.quiz ≤ b.quiz

/-- Both the required and the done ledger grew (or stayed). -/
def unitStateMono (u v : UnitState) : Prop :=
  unitMinutesLe u.required v.required ∧ unitMinutesLe u.done v.done

/-- Every per-unit and global required/done counter of `t` is at least the
one of `s` (same unit list length). -/
def ledgerMono (s t : StudentState) : Prop :=
  List.Forall₂ unitStateMono s.units t.units ∧
    s.global.casesRequired ≤ t.global.casesRequired ∧
    s.global.casesDone ≤ t.global.casesDone ∧
    s.global.programmingRequired ≤ t.global.programmingRequired ∧
    s.global.programmingDone ≤ t.global.programmingDone

/-- The claimed invariant of C2: `done ≤ required` in every per-unit and
global field. -/
def ledgerDoneLeRequired (s : StudentState) : Prop :=
  (∀ u ∈ s.units, unitMinutesLe u.done u.required) ∧
    s.global.casesDone ≤ s.global.casesRequired ∧
    s.global.programmingDone ≤ s.global.programmingRequired

/-- Total STUDY_THEME minutes of a block list. -/
def stSumBlocks (l : List StudyBlock) : ℚ :=
  ((l.filter fun b => b.activity = .STUDY_THEME).map StudyBlock.durationMinutes).sum

/-- The daily STUDY_THEME cap as a function of the day's available minutes
(the specification's `cap`). -/
def dayCapOf (avail : ℚ) : ℚ :=
  if 240 ≤ avail then ((⌊avail * (1 / 2)⌋ : ℤ) : ℚ) else min avail 120

/-! ## Concrete instances used by counterexamples and witnesses -/

/-- 15 days to the exam, 25/6 hours (250 minutes) available every day,
2 curriculum units. -/
def cexInputs : FormInputs :=
  { examDate := 15
    availabilityHoursByWeekday := [25/6, 25/6, 25/6, 25/6, 25/6, 25/6, 25/6]
    presentedBefore := false
    alreadyStudying := false
    region := "Madrid"
    stage := "Primaria"
    themesCount := some 2
    planProgramming := none }

def cexCapacity : PlanCapacity := calculateCapacity cexInputs 0

def cexState : StudentState := deriveInitialState cexInputs cexCapacity 0 0

/-- First day of the plan generated from `cexState`. -/
def cexPlanDay0 : DayPlan :=
  (generatePlanFromState cexInputs cexState 0 0).days.getD 0 (emptyDay 0)

/-- A unit that never received STUDY_THEME but still has secondary work. -/
def cexUnit0 : UnitTheoryBudget :=
  { studyThemeRemaining := 0, studyThemeDone := 0, reviewRemaining := 60,
    podcastRemaining := 60, flashcardRemaining := 60, quizRemaining := 90,
    totalRemaining := 270, studyThemeComplete := true }

/-- An activated unit (150 STUDY_THEME minutes) with secondary work. -/
def cexUnit1 : UnitTheoryBudget :=
  { studyThemeRemaining := 90, studyThemeDone := 150, reviewRemaining := 60,
    podcastRemaining := 60, flashcardRemaining := 60, quizRemaining := 90,
    totalRemaining := 360, studyThemeComplete := false }

/-- Budget for the C4 counterexample: unit 0 never activated, unit 1
activated. -/
def cexBudgetC4 : GlobalBudget :=
  { theoryPlanned := 1020, casesPlanned := 612, programmingPlanned := 408,
    theoryRemaining := 630, casesRemaining := 612, programmingRemaining := 408,
    casePracticeScheduled := 0, caseMockScheduled := 0,
    unitTheoryRemaining := [cexUnit0, cexUnit1] }

/-- Context for the C4 counterexample: a fresh day, no unit locked. -/
def cexCtxC4 : AllocatorContext :=
  { emptyCtx with
    availableMinutesToday := some 240
    studyThemeTodayMinutes := some 0 }

/-- Budget for the C6 counterexample: everything remaining. -/
def cexBudgetC6 : GlobalBudget :=
  { theoryPlanned := 1020, casesPlanned := 612, programmingPlanned := 408,
    theoryRemaining := 1020, casesRemaining := 612, programmingRemaining := 408,
    casePracticeScheduled := 0, caseMockScheduled := 0,
    unitTheoryRemaining := [cexUnit1] }

/-- Context for the C6 counterexample: week 3, exactly 120 minutes left in
the week, cases below the weekly minimum but not least-scheduled. -/
def cexCtxC6 : AllocatorContext :=
  { emptyCtx with
    weekIndex := some 3
    thisWeekTheory := some 0
    thisWeekCases := some 50
    thisWeekProg := some 70
    weekRemainingMinutes := some 120
    availableMinutesToday := some 240
    studyThemeTodayMinutes := some 0 }

/-- Budget for the C1 counterexample: only 30 theory minutes remain. -/
def cexBudgetC1 : GlobalBudget :=
  { theoryPlanned := 1020, casesPlanned := 612, programmingPlanned := 408,
    theoryRemaining := 30, casesRemaining := 612, programmingRemaining := 408,
    casePracticeScheduled := 0, caseMockScheduled := 0,
    unitTheoryRemaining := [cexUnit1] }

/-- State with one unit for the C2 counterexample and the C8 witness. -/
def cexStateC2 : StudentState :=
  { meta := { version := 1, createdAt := 0, todayISO := 0, examDate := 15 }
    units := [initialUnitState]
    global :=
      { casesRequired := 0, casesDone := 0
        programmingRequired := 0, programmingDone := 0 }
    slack :=
      { effectiveCapacityFuture := 100
        requiredMinutesFuture := 510
        slackMinutes := -410
        slackRatioV := -41/10
        status := .warning }
    prefs := ACTIVITY_TARGET_DEFAULTS }

/-- BLOCK_COMPLETED event reporting 300 minutes of STUDY_THEME on a unit
that only requires 240. -/
def cexEventC2 : FeedbackEvent :=
  .blockCompleted 0 "blk" .STUDY_THEME (some 0) 300

/-- Failing quiz event for the C8 witness. -/
def cexEventC8 : FeedbackEvent := .quizResult 5 (some 0) 45

/-! ## Theorems -/

/-- C9: For every fixed triple (inputs, state, todayISO), two runs of
`generatePlanFromState` agree on every component of the plan — the full days
list (hence the same days, block order, ids, activities, units and
durations), the debug totals, and every meta field — except
`meta.generatedAt`, the only place the wall clock (`now`) is read. -/
theorem generatePlanFromState_deterministic (inputs : FormInputs)
    (s : StudentState) (todayISO : DateISO) (now1 now2 : Int) :
    (generatePlanFromState inputs s todayISO now1).days =
      (generatePlanFromState inputs s todayISO now2).days ∧
    (generatePlanFromState inputs s todayISO now1).debugInfo =
      (generatePlanFromState inputs s todayISO now2).debugInfo ∧
    (generatePlanFromState inputs s todayISO now1).meta.today =
      (generatePlanFromState inputs s todayISO now2).meta.today ∧
    (generatePlanFromState inputs s todayISO now1).meta.examDate =
      (generatePlanFromState inputs s todayISO now2).meta.examDate ∧
    (generatePlanFromState inputs s todayISO now1).meta.region =
      (generatePlanFromState inputs s todayISO now2).meta.region ∧
    (generatePlanFromState inputs s todayISO now1).meta.stage =
      (generatePlanFromState inputs s todayISO now2).meta.stage ∧
    (generatePlanFromState inputs s todayISO now1).meta.unitsTotal =
      (generatePlanFromState inputs s todayISO now2).meta.unitsTotal :=
  ⟨rfl, rfl, rfl, rfl, rfl, rfl, rfl⟩

/-- C7: `calculateCapacity` returns `totalWeeks = ⌈diffDays(today, examDate)/7⌉`,
`effectivePlanningWeeks = max 0 (totalWeeks − 2)`,
`theoryPlanned = unitsCount·510`, `casesPlanned = ⌊0.6·theoryPlanned⌋`,
`programmingPlanned = ⌊0.4·theoryPlanned⌋`, `plannedMinutes` their sum, the
buffer ratio `bufferMinutes/availableEffectiveMinutes` (0 when the
denominator is not positive), and the status good / edge / warning at the
0.20 and 0.10 thresholds. -/
theorem calculateCapacity_spec (inputs : FormInputs) (todayISO : DateISO) :
    (calculateCapacity inputs todayISO).totalWeeks
        = ⌈((diffDays todayISO inputs.examDate : ℚ)) / 7⌉ ∧
    (calculateCapacity inputs todayISO).effectivePlanningWeeks
        = max 0 ((calculateCapacity inputs todayISO).totalWeeks - 2) ∧
    (calculateCapacity inputs todayISO).theoryPlanned
        = ((inputs.themesCount.getD 20 : ℕ) : ℚ) * 510 ∧
    (calculateCapacity inputs todayISO).casesPlanned
        = ((⌊(6 / 10 : ℚ) * (calculateCapacity inputs todayISO).theoryPlanned⌋ : ℤ) : ℚ) ∧
    (calculateCapacity inputs todayISO).programmingPlanned
        = ((⌊(4 / 10 : ℚ) * (calculateCapacity inputs todayISO).theoryPlanned⌋ : ℤ) : ℚ) ∧
    (calculateCapacity inputs todayISO).plannedMinutes
        = (calculateCapacity inputs todayISO).theoryPlanned
          + (calculateCapacity inputs todayISO).casesPlanned
          + (calculateCapacity inputs todayISO).programmingPlanned ∧
    (calculateCapacity inputs todayISO).bufferMinutes
        = (calculateCapacity inputs todayISO).availableEffectiveMinutes
          - (calculateCapacity inputs todayISO).plannedMinutes ∧
    (calculateCapacity inputs todayISO).bufferRatioV
        = (if 0 < (calculateCapacity inputs todayISO).availableEffectiveMinutes then
            (calculateCapacity inputs todayISO).bufferMinutes
              / (calculateCapacity inputs todayISO).availableEffectiveMinutes
          else 0) ∧
    (calculateCapacity inputs todayISO).bufferStatus
        = (if (2 / 10 : ℚ) ≤ (calculateCapacity inputs todayISO).bufferRatioV then .good
          else if (1 / 10 : ℚ) ≤ (calculateCapacity inputs todayISO).bufferRatioV then .edge
          else .warning) := by
  refine ⟨rfl, rfl, rfl, ?_, ?_, rfl, rfl, rfl, rfl⟩
  · show ((⌊_ * (3 / 5 : ℚ)⌋ : ℤ) : ℚ) = _
    rw [mul_comm]
    norm_num
    rfl
  · show ((⌊_ * (2 / 5 : ℚ)⌋ : ℤ) : ℚ) = _
    rw [mul_comm]
    norm_num
    rfl

/-- C10: the initial state derived from a capacity agrees with the capacity
buffer: the units are `unitsCount` copies of the baseline ledger whose
required activities sum to 510, total required equals `plannedMinutes` and
total done is 0, and the slack mirrors the buffer —
`requiredMinutesFuture = plannedMinutes`, `slackMinutes = bufferMinutes` and
`status = bufferStatus`. -/
theorem deriveInitialState_slack_agrees_capacity (inputs : FormInputs)
    (todayISO : DateISO) (now : Int) :
    (deriveInitialState inputs (calculateCapacity inputs todayISO) todayISO now).units
        = List.replicate (calculateCapacity inputs todayISO).unitsCount initialUnitState ∧
    initialUnitState.required.studyTheme + initialUnitState.required.review
        + initialUnitState.required.podcast + initialUnitState.required.flashcard
        + initialUnitState.required.quiz = 510 ∧
    computeTotalRequired
        (deriveInitialState inputs (calculateCapacity inputs todayISO) todayISO now)
      = (calculateCapacity inputs todayISO).plannedMinutes ∧
    computeTotalDone
        (deriveInitialState inputs (calculateCapacity inputs todayISO) todayISO now)
      = 0 ∧
    (deriveInitialState inputs (calculateCapacity inputs todayISO) todayISO now).slack.requiredMinutesFuture
      = (calculateCapacity inputs todayISO).plannedMinutes ∧
    (deriveInitialState inputs (calculateCapacity inputs todayISO) todayISO now).slack.slackMinutes
      = (calculateCapacity inputs todayISO).bufferMinutes ∧
    (deriveInitialState inputs (calculateCapacity inputs todayISO) todayISO now).slack.status
      = (calculateCapacity inputs todayISO).bufferStatus := by
  have hcap : ∀ x : ℚ, 0 ≤ x → (0:ℚ) ≤ ((⌊x⌋ : ℤ) : ℚ) := by
    intro x hx
    exact_mod_cast Int.floor_nonneg.mpr hx
  have htp : (0:ℚ) ≤ (calculateCapacity inputs todayISO).theoryPlanned := by
    show (0:ℚ) ≤ ((inputs.themesCount.getD 20 : ℕ) : ℚ) * THEORY_ENVELOPE_MINUTES
    unfold THEORY_ENVELOPE_MINUTES
    positivity
  have hcp : (0:ℚ) ≤ (calculateCapacity inputs todayISO).casesPlanned := by
    refine hcap _ ?_
    have : (0:ℚ) ≤ (calculateCapacity inputs todayISO).theoryPlanned * (3 / 5) := by
      positivity
    exact this
  have hpp : (0:ℚ) ≤ (calculateCapacity inputs todayISO).programmingPlanned := by
    refine hcap _ ?_
    have : (0:ℚ) ≤ (calculateCapacity inputs todayISO).theoryPlanned * (2 / 5) := by
      positivity
    exact this
  have hplanned : (0:ℚ) ≤ (calculateCapacity inputs todayISO).plannedMinutes := by
    have : (calculateCapacity inputs todayISO).plannedMinutes
        = (calculateCapacity inputs todayISO).theoryPlanned
          + (calculateCapacity inputs todayISO).casesPlanned
          + (calculateCapacity inputs todayISO).programmingPlanned := rfl
    rw [this]
    linarith
  have hreq : computeTotalRequired
      (deriveInitialState inputs (calculateCapacity inputs todayISO) todayISO now)
      = (calculateCapacity inputs todayISO).plannedMinutes := by
    show ((List.replicate (calculateCapacity inputs todayISO).unitsCount initialUnitState).map
        _).sum + (calculateCapacity inputs todayISO).casesPlanned
          + (calculateCapacity inputs todayISO).programmingPlanned = _
    rw [List.map_replicate, List.sum_replicate]
    show ((calculateCapacity inputs todayISO).unitsCount : ℕ) •
        (STUDY_THEME_MINUTES + REVIEW_MINUTES + PODCAST_MINUTES + FLASHCARD_MINUTES
          + QUIZ_MAX_MINUTES) + _ + _ = _
    rw [nsmul_eq_mul]
    show _ = (calculateCapacity inputs todayISO).theoryPlanned
        + (calculateCapacity inputs todayISO).casesPlanned
        + (calculateCapacity inputs todayISO).programmingPlanned
    have : ((calculateCapacity inputs todayISO).unitsCount : ℚ)
        * (STUDY_THEME_MINUTES + REVIEW_MINUTES + PODCAST_MINUTES + FLASHCARD_MINUTES
          + QUIZ_MAX_MINUTES)
        = (calculateCapacity inputs todayISO).theoryPlanned := by
      show _ = ((inputs.themesCount.getD 20 : ℕ) : ℚ) * THEORY_ENVELOPE_MINUTES
      norm_num [STUDY_THEME_MINUTES, REVIEW_MINUTES, PODCAST_MINUTES,
        FLASHCARD_MINUTES, QUIZ_MAX_MINUTES, THEORY_ENVELOPE_MINUTES]
      rfl
    rw [this]
  have hdone : computeTotalDone
      (deriveInitialState inputs (calculateCapacity inputs todayISO) todayISO now) = 0 := by
    show ((List.replicate (calculateCapacity inputs todayISO).unitsCount initialUnitState).map
        _).sum + 0 + 0 = 0
    rw [List.map_replicate]
    norm_num [initialUnitState]
  have hslack : (deriveInitialState inputs (calculateCapacity inputs todayISO) todayISO now).slack
      = computeSlack (calculateCapacity inputs todayISO).availableEffectiveMinutes
        (computeTotalRequired
          (deriveInitialState inputs (calculateCapacity inputs todayISO) todayISO now))
        (computeTotalDone
          (deriveInitialState inputs (calculateCapacity inputs todayISO) todayISO now)) := rfl
  have hmax : max 0 ((calculateCapacity inputs todayISO).plannedMinutes - 0)
      = (calculateCapacity inputs todayISO).plannedMinutes := by
    simpa using hplanned
  refine ⟨rfl, ?_, hreq, hdone, ?_, ?_, ?_⟩
  · norm_num [initialUnitState, STUDY_THEME_MINUTES, REVIEW_MINUTES, PODCAST_MINUTES,
      FLASHCARD_MINUTES, QUIZ_MAX_MINUTES]
  · rw [hslack, hreq, hdone]
    show max 0 ((calculateCapacity inputs todayISO).plannedMinutes - 0) = _
    exact hmax
  · rw [hslack, hreq, hdone]
    show (calculateCapacity inputs todayISO).availableEffectiveMinutes
        - max 0 ((calculateCapacity inputs todayISO).plannedMinutes - 0) = _
    rw [hmax]
    rfl
  · rw [hslack, hreq, hdone]
    show (if (2/10 : ℚ) ≤ (if 0 < (calculateCapacity inputs todayISO).availableEffectiveMinutes
          then ((calculateCapacity inputs todayISO).availableEffectiveMinutes
            - max 0 ((calculateCapacity inputs todayISO).plannedMinutes - 0))
            / (calculateCapacity inputs todayISO).availableEffectiveMinutes else 0)
        then BufferStatus.good
        else if (1/10 : ℚ) ≤ (if 0 < (calculateCapacity inputs todayISO).availableEffectiveMinutes
          then ((calculateCapacity inputs todayISO).availableEffectiveMinutes
            - max 0 ((calculateCapacity inputs todayISO).plannedMinutes - 0))
            / (calculateCapacity inputs todayISO).availableEffectiveMinutes else 0)
        then BufferStatus.edge else BufferStatus.warning) = _
    rw [hmax]
    rfl

/-- C8: if a list of feedback events grows total required by `d` while
leaving total done unchanged, and required minus done is non-negative before
and after, then `applyFeedbackEvents` lowers `slackMinutes` by exactly `d`
(for a state whose stored slack is the one computed from its own ledgers). -/
theorem applyFeedbackEvents_slack_delta (s : StudentState)
    (events : List FeedbackEvent) (d : ℚ)
    (hreq : computeTotalRequired (applyFeedbackEvents s events)
      = computeTotalRequired s + d)
    (hdone : computeTotalDone (applyFeedbackEvents s events) = computeTotalDone s)
    (hnn0 : 0 ≤ computeTotalRequired s - computeTotalDone s)
    (hnn1 : 0 ≤ computeTotalRequired (applyFeedbackEvents s events)
      - computeTotalDone (applyFeedbackEvents s events))
    (hcons : s.slack.slackMinutes = s.slack.effectiveCapacityFuture
      - max 0 (computeTotalRequired s - computeTotalDone s)) :
    (applyFeedbackEvents s events).slack.slackMinutes
      = s.slack.slackMinutes - d := by
  have hslack : (applyFeedbackEvents s events).slack
      = computeSlack s.slack.effectiveCapacityFuture
        (computeTotalRequired (applyFeedbackEvents s events))
        (computeTotalDone (applyFeedbackEvents s events)) := rfl
  have h1 : max 0 (computeTotalRequired (applyFeedbackEvents s events)
      - computeTotalDone (applyFeedbackEvents s events))
      = computeTotalRequired (applyFeedbackEvents s events)
        - computeTotalDone (applyFeedbackEvents s events) :=
    max_eq_right hnn1
  have h0 : max 0 (computeTotalRequired s - computeTotalDone s)
      = computeTotalRequired s - computeTotalDone s :=
    max_eq_right hnn0
  rw [hslack]
  show s.slack.effectiveCapacityFuture
      - max 0 (computeTotalRequired (applyFeedbackEvents s events)
        - computeTotalDone (applyFeedbackEvents s events)) = _
  rw [h1, hreq, hdone, hcons, h0]
  ring

set_option maxRecDepth 4000 in
/-- Witness for C8: a failing quiz on a one-unit state grows required by 30
and lowers `slackMinutes` from -410 to -440. -/
theorem applyFeedbackEvents_slack_delta_witness :
    computeTotalRequired (applyFeedbackEvents cexStateC2 [cexEventC8])
      = computeTotalRequired cexStateC2 + 30 ∧
    (applyFeedbackEvents cexStateC2 [cexEventC8]).slack.slackMinutes
      = cexStateC2.slack.slackMinutes - 30 ∧
    (applyFeedbackEvents cexStateC2 [cexEventC8]).slack.slackMinutes = -440 :=
  ⟨by with_unfolding_all decide,
    applyFeedbackEvents_slack_delta cexStateC2 [cexEventC8] 30
      (by with_unfolding_all decide) (by with_unfolding_all decide)
      (by with_unfolding_all decide) (by with_unfolding_all decide)
      (by with_unfolding_all decide),
    by with_unfolding_all decide⟩

/-- Membership in a `modifyIdx` result comes from the old list, possibly
through the update function. -/
theorem mem_modifyIdx {f : UnitTheoryBudget → UnitTheoryBudget} :
    ∀ {k : Nat} {l : List UnitTheoryBudget} {u : UnitTheoryBudget},
      u ∈ modifyIdx f k l → u ∈ l ∨ ∃ v, v ∈ l ∧ u = f v := by
  intro k l
  induction l generalizing k with
  | nil => intro u h; simp [modifyIdx] at h
  | cons a as ih =>
    intro u h
    cases k with
    | zero =>
      simp only [modifyIdx, List.mem_cons] at h
      rcases h with h | h
      · exact Or.inr ⟨a, List.mem_cons_self a as, h⟩
      · exact Or.inl (List.mem_cons_of_mem a h)
    | succ n =>
      simp only [modifyIdx, List.mem_cons] at h
      rcases h with h | h
      · exact Or.inl (h ▸ List.mem_cons_self a as)
      · rcases ih h with h2 | ⟨v, hv, he⟩
        · exact Or.inl (List.mem_cons_of_mem a h2)
        · exact Or.inr ⟨v, List.mem_cons_of_mem a hv, he⟩

/-- `modifyIdx` preserves a pointwise property when the update does. -/
theorem modifyIdx_preserves {f : UnitTheoryBudget → UnitTheoryBudget}
    {k : Nat} {l : List UnitTheoryBudget}
    (hf : ∀ u ∈ l, unitNonneg u → unitNonneg (f u))
    (hl : ∀ u ∈ l, unitNonneg u) :
    ∀ u ∈ modifyIdx f k l, unitNonneg u := by
  intro u hu
  rcases mem_modifyIdx hu with h | ⟨v, hv, he⟩
  · exact hl u h
  · exact he ▸ hf v hv (hl v hv)

/-- C1 (amended): for a budget whose per-unit remaining fields are all
non-negative and a committed block of `m ≥ 0` minutes, `updateGlobalBudget`
keeps every per-unit remaining field non-negative (they are clamped at 0),
while the stream-level `theoryRemaining` / `casesRemaining` /
`programmingRemaining` are decremented by exactly `m` with no clamp, and so
may go negative. -/
theorem updateGlobalBudget_unit_nonneg (b : GlobalBudget) (act : ActivityType)
    (m : ℚ) (uo : Option Nat) (ctx : AllocatorContext)
    (hm : 0 ≤ m)
    (hn : ∀ u ∈ b.unitTheoryRemaining, unitNonneg u) :
    (∀ u ∈ (updateGlobalBudget b act m uo ctx).unitTheoryRemaining, unitNonneg u) ∧
    (streamOf act = .theory →
      (updateGlobalBudget b act m uo ctx).theoryRemaining = b.theoryRemaining - m) ∧
    (streamOf act = .cases →
      (updateGlobalBudget b act m uo ctx).casesRemaining = b.casesRemaining - m) ∧
    (act = .PROGRAMMING_BLOCK →
      (updateGlobalBudget b act m uo ctx).programmingRemaining
        = b.programmingRemaining - m) := by
  cases act <;>
    · unfold updateGlobalBudget
      cases h : resolveUnitFor b ctx uo <;>
        simp only [h] <;>
        refine ⟨?_, ?_, ?_, ?_⟩ <;>
          first
          | exact hn
          | (refine modifyIdx_preserves ?_ hn
             intro u hu hnu
             exact ⟨by first | exact le_max_left 0 _ | exact hnu.1,
               by first | exact le_max_left 0 _ | exact hnu.2.1,
               by first | exact le_max_left 0 _ | exact hnu.2.2.1,
               by first | exact le_max_left 0 _ | exact hnu.2.2.2.1,
               by first | exact le_max_left 0 _ | exact hnu.2.2.2.2.1,
               le_max_left 0 _⟩)
          | trivial
          | (intro hcontra
             first
             | rfl
             | exact absurd hcontra (by decide))

/-- Counterexample for C1 as stated: a budget with all remaining fields
non-negative (30 theory minutes left) and a 60-minute STUDY_THEME commit
drive the stream-level `theoryRemaining` to -30: it is not clamped at 0. -/
theorem updateGlobalBudget_stream_clamp_counterexample :
    (0:ℚ) ≤ 60 ∧
    (0:ℚ) ≤ cexBudgetC1.theoryRemaining ∧
    (0:ℚ) ≤ cexBudgetC1.casesRemaining ∧
    (0:ℚ) ≤ cexBudgetC1.programmingRemaining ∧
    (∀ u ∈ cexBudgetC1.unitTheoryRemaining, unitNonneg u) ∧
    (updateGlobalBudget cexBudgetC1 .STUDY_THEME 60 none emptyCtx).theoryRemaining = -30 ∧
    ¬(0 ≤ (updateGlobalBudget cexBudgetC1 .STUDY_THEME 60 none emptyCtx).theoryRemaining) := by
  refine ⟨?_, ?_, ?_, ?_, ?_, ?_, ?_⟩ <;>
    first
    | with_unfolding_all decide
    | (intro u hu
       fin_cases hu <;> constructor <;> with_unfolding_all decide)

/-- Witness for C1: the amended theorem applied to the same concrete budget;
the per-unit STUDY_THEME remaining is clamped to 0 while the stream total
goes to -30. -/
theorem updateGlobalBudget_unit_nonneg_witness :
    (∀ u ∈ (updateGlobalBudget cexBudgetC1 .STUDY_THEME 60 none emptyCtx).unitTheoryRemaining,
      unitNonneg u) ∧
    (updateGlobalBudget cexBudgetC1 .STUDY_THEME 60 none emptyCtx).theoryRemaining
      = cexBudgetC1.theoryRemaining - 60 :=
  ⟨(updateGlobalBudget_unit_nonneg cexBudgetC1 .STUDY_THEME 60 none emptyCtx
      (by with_unfolding_all decide)
      (by intro u hu
          fin_cases hu <;> constructor <;> with_unfolding_all decide)).1,
    (updateGlobalBudget_unit_nonneg cexBudgetC1 .STUDY_THEME 60 none emptyCtx
      (by with_unfolding_all decide)
      (by intro u hu
          fin_cases hu <;> constructor <;> with_unfolding_all decide)).2.1 rfl⟩

theorem unitMinutesLe_refl (a : UnitMinutes) : unitMinutesLe a a :=
  ⟨le_refl _, le_refl _, le_refl _, le_refl _, le_refl _⟩

theorem unitMinutesLe_trans {a b c : UnitMinutes} (h1 : unitMinutesLe a b)
    (h2 : unitMinutesLe b c) : unitMinutesLe a c :=
  ⟨le_trans h1.1 h2.1, le_trans h1.2.1 h2.2.1, le_trans h1.2.2.1 h2.2.2.1,
    le_trans h1.2.2.2.1 h2.2.2.2.1, le_trans h1.2.2.2.2 h2.2.2.2.2⟩

theorem unitStateMono_refl (u : UnitState) : unitStateMono u u :=
  ⟨unitMinutesLe_refl _, unitMinutesLe_refl _⟩

theorem unitStateMono_trans {u v w : UnitState} (h1 : unitStateMono u v)
    (h2 : unitStateMono v w) : unitStateMono u w :=
  ⟨unitMinutesLe_trans h1.1 h2.1, unitMinutesLe_trans h1.2 h2.2⟩

theorem forall2_unitStateMono_refl (l : List UnitState) :
    List.Forall₂ unitStateMono l l :=
  List.forall₂_same.mpr fun u _ => unitStateMono_refl u

theorem forall2_unitStateMono_trans :
    ∀ {l1 l2 l3 : List UnitState}, List.Forall₂ unitStateMono l1 l2 →
      List.Forall₂ unitStateMono l2 l3 → List.Forall₂ unitStateMono l1 l3 := by
  intro l1 l2 l3 h1
  induction h1 generalizing l3 with
  | nil => intro h2; cases h2; exact List.Forall₂.nil
  | cons hab htl ih =>
    intro h2
    cases h2 with
    | cons hbc htl2 => exact List.Forall₂.cons (unitStateMono_trans hab hbc) (ih htl2)

theorem ledgerMono_refl (s : StudentState) : ledgerMono s s :=
  ⟨forall2_unitStateMono_refl _, le_refl _, le_refl _, le_refl _, le_refl _⟩

theorem ledgerMono_trans {s t w : StudentState} (h1 : ledgerMono s t)
    (h2 : ledgerMono t w) : ledgerMono s w :=
  ⟨forall2_unitStateMono_trans h1.1 h2.1, le_trans h1.2.1 h2.2.1,
    le_trans h1.2.2.1 h2.2.2.1, le_trans h1.2.2.2.1 h2.2.2.2.1,
    le_trans h1.2.2.2.2 h2.2.2.2.2⟩

theorem forall2_modifyUnitState {f : UnitState → UnitState}
    (hf : ∀ u, unitStateMono u (f u)) :
    ∀ (k : Nat) (l : List UnitState),
      List.Forall₂ unitStateMono l (modifyUnitState f k l) := by
  intro k l
  induction l generalizing k with
  | nil => cases k <;> exact List.Forall₂.nil
  | cons a as ih =>
    cases k with
    | zero => exact List.Forall₂.cons (hf a) (forall2_unitStateMono_refl as)
    | succ n => exact List.Forall₂.cons (unitStateMono_refl a) (ih n)

theorem floorMax_nonneg (m : ℚ) : (0:ℚ) ≤ ((max 0 ⌊m⌋ : ℤ) : ℚ) := by
  have : (0:ℤ) ≤ max 0 ⌊m⌋ := le_max_left 0 _
  exact_mod_cast this

theorem boostRequiredReview_mono (u : UnitState) :
    unitStateMono u (boostRequiredReview u) := by
  refine ⟨⟨le_refl _, ?_, le_refl _, le_refl _, le_refl _⟩, unitMinutesLe_refl _⟩
  show u.required.review ≤ u.required.review + REVIEW_BOOST_MINUTES
  unfold REVIEW_BOOST_MINUTES
  linarith

theorem addDoneMinutes_mono (act : ActivityType) (m : ℚ) (hm : 0 ≤ m)
    (u : UnitState) : unitStateMono u (addDoneMinutes act m u) := by
  cases act <;>
    exact ⟨unitMinutesLe_refl _,
      by first | exact le_refl _ | exact le_add_of_nonneg_right hm,
      by first | exact le_refl _ | exact le_add_of_nonneg_right hm,
      by first | exact le_refl _ | exact le_add_of_nonneg_right hm,
      by first | exact le_refl _ | exact le_add_of_nonneg_right hm,
      by first | exact le_refl _ | exact le_add_of_nonneg_right hm⟩

theorem applyOneEvent_mono (s : StudentState) (e : FeedbackEvent) :
    ledgerMono s (applyOneEvent s e) := by
  cases e with
  | quizResult dt unit score =>
    unfold applyOneEvent
    cases unit with
    | none => exact ledgerMono_refl s
    | some k =>
      dsimp only
      repeat' split
      all_goals
        first
        | exact ledgerMono_refl s
        | exact ⟨forall2_modifyUnitState boostRequiredReview_mono _ _,
            le_refl _, le_refl _, le_refl _, le_refl _⟩
  | blockCompleted dt bid act unit m =>
    unfold applyOneEvent
    dsimp only
    repeat' split
    all_goals
      first
      | exact ledgerMono_refl s
      | exact ⟨forall2_modifyUnitState
          (addDoneMinutes_mono _ _ (floorMax_nonneg m)) _ _,
          le_refl _, le_refl _, le_refl _, le_refl _⟩
      | exact ⟨forall2_unitStateMono_refl _, le_refl _,
          le_add_of_nonneg_right (floorMax_nonneg m), le_refl _, le_refl _⟩
      | exact ⟨forall2_unitStateMono_refl _, le_refl _, le_refl _, le_refl _,
          le_add_of_nonneg_right (floorMax_nonneg m)⟩
  | sessionFeedback dt bid act feel => exact ledgerMono_refl s

theorem foldl_applyOneEvent_mono (events : List FeedbackEvent) :
    ∀ s : StudentState, ledgerMono s (events.foldl applyOneEvent s) := by
  induction events with
  | nil => intro s; exact ledgerMono_refl s
  | cons e rest ih =>
    intro s
    exact ledgerMono_trans (applyOneEvent_mono s e) (ih (applyOneEvent s e))

theorem modifyUnitState_getD (f : UnitState → UnitState) :
    ∀ (k : Nat) (l : List UnitState) (d : UnitState), k < l.length →
      (modifyUnitState f k l).getD k d = f (l.getD k d) := by
  intro k l
  induction l generalizing k with
  | nil => intro d h; simp at h
  | cons a as ih =>
    intro d h
    cases k with
    | zero => rfl
    | succ n =>
      show (modifyUnitState f n as).getD n d = f (as.getD n d)
      exact ih n d (by simpa using h)

theorem doneFor_addDoneMinutes (act : ActivityType) (m : ℚ) (u : UnitState)
    (ha : isTheoryActivity act = true) :
    doneFor act (addDoneMinutes act m u).done = doneFor act u.done + m := by
  cases act <;> first | rfl | exact absurd ha (by decide)

theorem applyOneEvent_blockCompleted_theory (s : StudentState) (dt : DateISO)
    (bid : String) (act : ActivityType) (k : Nat) (m : ℚ)
    (ha : isTheoryActivity act = true) :
    applyOneEvent s (.blockCompleted dt bid act (some k) m)
      = (if ((max 0 ⌊m⌋ : ℤ) : ℚ) = 0 then s
        else if k < s.units.length then
          { s with units :=
              modifyUnitState (addDoneMinutes act ((max 0 ⌊m⌋ : ℤ) : ℚ)) k s.units }
        else s) := by
  cases act <;> first | rfl | exact absurd ha (by decide)

/-- C2 (amended): `applyFeedbackEvents` never decreases any per-unit or
global required/done counter, and a `BLOCK_COMPLETED` event for any of the
five per-unit activities (STUDY_THEME, REVIEW, PODCAST, FLASHCARD, QUIZ)
adds exactly `floor(max(0, completedMinutes))` to the matching done counter
with no clamp against `required`, so `done` may exceed `required`. -/
theorem applyFeedbackEvents_monotone_unclamped (s : StudentState)
    (events : List FeedbackEvent) :
    ledgerMono s (applyFeedbackEvents s events) ∧
    (∀ (dt : DateISO) (bid : String) (act : ActivityType) (m : ℚ) (k : Nat),
      isTheoryActivity act = true →
      k < s.units.length →
      doneFor act ((applyFeedbackEvents s
          [.blockCompleted dt bid act (some k) m]).units.getD k
          initialUnitState).done
        = doneFor act (s.units.getD k initialUnitState).done
          + ((max 0 ⌊m⌋ : ℤ) : ℚ)) ∧
    (∀ m : ℚ, ((max 0 ⌊m⌋ : ℤ) : ℚ) = ((⌊max 0 m⌋ : ℤ) : ℚ)) := by
  refine ⟨foldl_applyOneEvent_mono events s, ?_, ?_⟩
  · intro dt bid act m k ha hk
    have hred : (applyFeedbackEvents s
        [.blockCompleted dt bid act (some k) m]).units
        = (applyOneEvent s (.blockCompleted dt bid act (some k) m)).units := rfl
    rw [hred, applyOneEvent_blockCompleted_theory s dt bid act k m ha]
    by_cases hz : ((max 0 ⌊m⌋ : ℤ) : ℚ) = 0
    · rw [if_pos hz, hz, add_zero]
    · rw [if_neg hz, if_pos hk]
      show doneFor act ((modifyUnitState (addDoneMinutes act ((max 0 ⌊m⌋ : ℤ) : ℚ))
          k s.units).getD k initialUnitState).done = _
      rw [modifyUnitState_getD _ k s.units initialUnitState hk]
      exact doneFor_addDoneMinutes act _ _ ha
  · intro m
    rcases le_total 0 m with h | h
    · rw [max_eq_right h, max_eq_right (Int.floor_nonneg.mpr h)]
    · rw [max_eq_left h, max_eq_left (by exact_mod_cast Int.floor_nonpos h)]
      norm_num

/-- Counterexample for C2 as stated: `cexStateC2` satisfies
`done ≤ required` everywhere, but after a BLOCK_COMPLETED event reporting
300 STUDY_THEME minutes on a unit requiring 240, done (300) exceeds
required (240): the addition is not clamped. -/
theorem applyFeedbackEvents_done_clamp_counterexample :
    ledgerDoneLeRequired cexStateC2 ∧
    ((applyFeedbackEvents cexStateC2 [cexEventC2]).units.getD 0
        initialUnitState).required.studyTheme = 240 ∧
    ((applyFeedbackEvents cexStateC2 [cexEventC2]).units.getD 0
        initialUnitState).done.studyTheme = 300 ∧
    ¬ledgerDoneLeRequired (applyFeedbackEvents cexStateC2 [cexEventC2]) := by
  refine ⟨⟨?_, ?_, ?_⟩, ?_, ?_, ?_⟩
  · intro u hu
    fin_cases hu
    refine ⟨?_, ?_, ?_, ?_, ?_⟩ <;> with_unfolding_all decide
  · with_unfolding_all decide
  · with_unfolding_all decide
  · with_unfolding_all decide
  · with_unfolding_all decide
  · intro hcl
    have h1 := hcl.1 ((applyFeedbackEvents cexStateC2 [cexEventC2]).units.getD 0
      initialUnitState) (by with_unfolding_all decide)
    have h2 := h1.1
    revert h2
    with_unfolding_all decide

/-- Witness for C2 (amended): the monotonicity part at the 300-minute
STUDY_THEME completion event, and the exact unclamped addition at a
300-minute REVIEW completion on the same one-unit state. -/
theorem applyFeedbackEvents_monotone_unclamped_witness :
    ledgerMono cexStateC2 (applyFeedbackEvents cexStateC2 [cexEventC2]) ∧
    isTheoryActivity .REVIEW = true ∧
    doneFor .REVIEW ((applyFeedbackEvents cexStateC2
        [.blockCompleted 0 "blk" .REVIEW (some 0) 300]).units.getD 0
        initialUnitState).done
      = doneFor .REVIEW (cexStateC2.units.getD 0 initialUnitState).done + 300 :=
  ⟨(applyFeedbackEvents_monotone_unclamped cexStateC2 [cexEventC2]).1,
    by decide,
    by
      have h := (applyFeedbackEvents_monotone_unclamped cexStateC2
        [.blockCompleted 0 "blk" .REVIEW (some 0) 300]).2.1 0 "blk" .REVIEW 300 0
        (by decide) (by with_unfolding_all decide)
      have e : ((max 0 ⌊(300:ℚ)⌋ : ℤ) : ℚ) = 300 := by with_unfolding_all decide
      rw [e] at h
      exact h⟩

theorem selectSecondaryForUnit_spec {b : GlobalBudget} {k : Nat}
    {t : Option Nat} {act : ActivityType}
    (h : selectSecondaryForUnit b k t = some act) :
    ∃ u, b.unitTheoryRemaining.get? k = some u ∧ 0 < u.totalRemaining ∧
      (0 < u.studyThemeDone ∨ t = some k) ∧
      (act = .REVIEW ∨ act = .PODCAST ∨ act = .FLASHCARD ∨ act = .QUIZ) ∧
      (act = .REVIEW → STUDY_THEME_COMPLETE_THRESHOLD ≤ u.studyThemeDone) ∧
      0 < secondaryRemainingFor act u := by
  cases hg : b.unitTheoryRemaining.get? k with
  | none => rw [selectSecondaryForUnit, hg] at h; cases h
  | some u =>
    rw [selectSecondaryForUnit, hg] at h
    dsimp only at h
    split_ifs at h with h1 h2 h3 h4 h5 h6
    · cases h
      exact ⟨u, rfl, not_le.mp h1, by tauto, by simp, fun _ => h3.1, h3.2⟩
    · cases h
      exact ⟨u, rfl, not_le.mp h1, by tauto, by simp,
        fun hc => absurd hc (by decide), h4⟩
    · cases h
      exact ⟨u, rfl, not_le.mp h1, by tauto, by simp,
        fun hc => absurd hc (by decide), h5⟩
    · cases h
      exact ⟨u, rfl, not_le.mp h1, by tauto, by simp,
        fun hc => absurd hc (by decide), h6⟩

theorem interleaveLoop_spec {b : GlobalBudget} {t : Option Nat} {p : Bool}
    {ctx : AllocatorContext} :
    ∀ {l : List Nat} {act : ActivityType},
      (interleaveLoop b t p ctx l).1 = some act →
      ∃ k, selectSecondaryForUnit b k t = some act := by
  intro l
  induction l with
  | nil => intro act h; cases h
  | cons k rest ih =>
    intro act h
    rw [interleaveLoop] at h
    cases hs : selectSecondaryForUnit b k t with
    | none => rw [hs] at h; exact ih h
    | some a =>
      rw [hs] at h
      dsimp only at h
      split_ifs at h <;> (cases h; exact ⟨k, hs⟩)

theorem finalSecondaryLoop_spec {b : GlobalBudget} {t : Option Nat}
    {ctx : AllocatorContext} :
    ∀ {l : List Nat} {act : ActivityType},
      (finalSecondaryLoop b t ctx l).1 = some act →
      ∃ k, selectSecondaryForUnit b k t = some act := by
  intro l
  induction l with
  | nil => intro act h; cases h
  | cons k rest ih =>
    intro act h
    rw [finalSecondaryLoop] at h
    cases hs : selectSecondaryForUnit b k t with
    | none => rw [hs] at h; exact ih h
    | some a =>
      rw [hs] at h
      cases h
      exact ⟨k, hs⟩

theorem selectSecondaryWithInterleaving_spec {b : GlobalBudget}
    {t : Option Nat} {ctx : AllocatorContext} {act : ActivityType}
    (h : (selectSecondaryWithInterleaving b t ctx).1 = some act) :
    ∃ k, selectSecondaryForUnit b k t = some act := by
  rw [selectSecondaryWithInterleaving] at h
  exact interleaveLoop_spec h

theorem selectTheoryFallback_spec {b : GlobalBudget} {t : Option Nat}
    {ctx : AllocatorContext} {act : ActivityType}
    (h : (selectTheoryFallback b t ctx).1 = some act) :
    ∃ k, selectSecondaryForUnit b k t = some act := by
  unfold selectTheoryFallback at h
  cases t with
  | none =>
    dsimp only at h
    exact finalSecondaryLoop_spec h
  | some tu =>
    dsimp only at h
    cases hsw : selectSecondaryWithInterleaving b (some tu) ctx with
    | mk r1 r2 =>
      rw [hsw] at h
      cases r1 with
      | some a =>
        dsimp only at h
        cases h
        exact selectSecondaryWithInterleaving_spec (by rw [hsw])
      | none =>
        dsimp only at h
        exact finalSecondaryLoop_spec h

theorem selectTheoryActivityLegacy_spec {b : GlobalBudget} {act : ActivityType}
    (h : selectTheoryActivityLegacy b = some act) :
    act = .STUDY_THEME ∨ ∃ k, selectSecondaryForUnit b k none = some act := by
  rw [selectTheoryActivityLegacy] at h
  cases h1 : firstUnitWithRemainingIdx b with
  | none => rw [h1] at h; cases h
  | some k =>
    rw [h1] at h
    dsimp only at h
    cases h2 : b.unitTheoryRemaining.get? k with
    | none => rw [h2] at h; cases h
    | some u =>
      rw [h2] at h
      dsimp only at h
      split_ifs at h
      · cases h; exact Or.inl rfl
      · exact Or.inr ⟨k, h⟩

theorem selectTheoryActivity_spec {b : GlobalBudget} {ctx : AllocatorContext}
    {act : ActivityType}
    (h : (selectTheoryActivity b ctx).1 = some act) :
    (act = .STUDY_THEME ∧ (ctx.availableMinutesToday = none ∨
       ctx.studyThemeTodayMinutes.getD 0 < theoryCap ctx)) ∨
    (∃ k t, (t = ctx.studyThemeTodayUnit ∨ t = none) ∧
      selectSecondaryForUnit b k t = some act) := by
  rw [selectTheoryActivity] at h
  cases ha : ctx.availableMinutesToday with
  | none =>
    rw [ha] at h
    dsimp only at h
    rcases selectTheoryActivityLegacy_spec h with h2 | ⟨k, hk⟩
    · exact Or.inl ⟨h2, Or.inl rfl⟩
    · exact Or.inr ⟨k, none, Or.inr rfl, hk⟩
  | some a =>
    rw [ha] at h
    dsimp only at h
    by_cases hc : theoryCap ctx ≤ ctx.studyThemeTodayMinutes.getD 0
    · rw [if_pos hc] at h
      cases htu : ctx.studyThemeTodayUnit with
      | none => rw [htu] at h; cases h
      | some unit =>
        rw [htu] at h
        dsimp only at h
        cases hsw : selectSecondaryWithInterleaving b (some unit) ctx with
        | mk r1 r2 =>
          rw [hsw] at h
          cases r1 with
          | some a2 =>
            dsimp only at h
            cases h
            rcases selectSecondaryWithInterleaving_spec
              (show (selectSecondaryWithInterleaving b (some unit) ctx).1 = some act
                by rw [hsw]) with ⟨k, hk⟩
            exact Or.inr ⟨k, some unit, Or.inl rfl, hk⟩
          | none =>
            dsimp only at h
            exact Or.inr ⟨unit, some unit, Or.inl rfl, h⟩
    · rw [if_neg hc] at h
      cases hp : firstEligiblePrimaryUnit b ctx.studyThemeTodayUnit with
      | some p =>
        rw [hp] at h
        dsimp only at h
        by_cases hq : 0 < ((b.unitTheoryRemaining.get? p).map
            UnitTheoryBudget.studyThemeRemaining).getD 0
        · rw [if_pos hq] at h
          dsimp only at h
          cases h
          exact Or.inl ⟨rfl, Or.inr (not_le.mp hc)⟩
        · rw [if_neg hq] at h
          rcases selectTheoryFallback_spec h with ⟨k, hk⟩
          exact Or.inr ⟨k, ctx.studyThemeTodayUnit, Or.inl rfl, hk⟩
      | none =>
        rw [hp] at h
        dsimp only at h
        rcases selectTheoryFallback_spec h with ⟨k, hk⟩
        exact Or.inr ⟨k, ctx.studyThemeTodayUnit, Or.inl rfl, hk⟩

theorem selectSecondaryForUnit_ne_st {b : GlobalBudget} {k : Nat}
    {t : Option Nat} : selectSecondaryForUnit b k t ≠ some .STUDY_THEME := by
  intro h
  rcases selectSecondaryForUnit_spec h with ⟨u, _, _, _, hacts, _, _⟩
  rcases hacts with h2 | h2 | h2 | h2 <;> cases h2

theorem selectTheoryActivity_stream {b : GlobalBudget}
    {ctx : AllocatorContext} {act : ActivityType}
    (h : (selectTheoryActivity b ctx).1 = some act) :
    streamOf act = .theory := by
  rcases selectTheoryActivity_spec h with ⟨rfl, _⟩ | ⟨k, t, _, hk⟩
  · rfl
  · rcases selectSecondaryForUnit_spec hk with ⟨u, _, _, _, hacts, _, _⟩
    rcases hacts with rfl | rfl | rfl | rfl <;> rfl

theorem selectTheoryActivity_st_cap {b : GlobalBudget}
    {ctx : AllocatorContext} {a : ℚ}
    (ha : ctx.availableMinutesToday = some a)
    (h : (selectTheoryActivity b ctx).1 = some .STUDY_THEME) :
    ctx.studyThemeTodayMinutes.getD 0 < theoryCap ctx := by
  rcases selectTheoryActivity_spec h with ⟨_, hor⟩ | ⟨k, t, _, hk⟩
  · rcases hor with hnone | hlt
    · rw [ha] at hnone; cases hnone
    · exact hlt
  · exact absurd hk selectSecondaryForUnit_ne_st

theorem selectCasesActivity_shape (b : GlobalBudget) :
    selectCasesActivity b = .CASE_PRACTICE ∨ selectCasesActivity b = .CASE_MOCK := by
  unfold selectCasesActivity
  split_ifs <;> simp

theorem selectCasesActivity_stream (b : GlobalBudget) :
    streamOf (selectCasesActivity b) = .cases := by
  rcases selectCasesActivity_shape b with h | h <;> rw [h] <;> rfl

set_option maxHeartbeats 1600000 in
theorem selectActivity_result {b : GlobalBudget} {wi : ℚ}
    {ctx : AllocatorContext} {act : ActivityType}
    (h : (selectActivity b wi ctx).1 = some act) :
    (selectTheoryActivity b ctx).1 = some act ∨
      act = selectCasesActivity b ∨ act = .PROGRAMMING_BLOCK := by
  rw [selectActivity] at h
  dsimp only at h
  repeat' split at h
  all_goals
    first
    | exact Or.inl h
    | (dsimp only at h
       first
       | (cases h; exact Or.inr (Or.inl rfl))
       | (cases h; exact Or.inr (Or.inr rfl))
       | cases h)

set_option maxHeartbeats 1600000 in
theorem selectActivityWithSmoothing_result {b : GlobalBudget}
    {ctx : AllocatorContext} {act : ActivityType}
    (h : (selectActivityWithSmoothing b ctx).1 = some act) :
    (selectTheoryActivity b ctx).1 = some act ∨
      act = selectCasesActivity b ∨ act = .PROGRAMMING_BLOCK := by
  rw [selectActivityWithSmoothing] at h
  dsimp only at h
  repeat' split at h
  all_goals
    first
    | exact Or.inl h
    | exact selectActivity_result h
    | (dsimp only at h
       first
       | (cases h; exact Or.inr (Or.inl rfl))
       | (cases h; exact Or.inr (Or.inr rfl))
       | cases h)

theorem selectActivity_week12_theory {b : GlobalBudget} {wi : ℚ}
    {ctx : AllocatorContext} (hwi : wi ≤ 2) :
    selectActivity b wi ctx = selectTheoryActivity b ctx := by
  rw [selectActivity, if_pos hwi]

theorem selectActivityWithSmoothing_week12_theory {b : GlobalBudget}
    {ctx : AllocatorContext} (hwi : ctx.weekIndex.getD 0 ≤ 2) :
    selectActivityWithSmoothing b ctx = selectTheoryActivity b ctx := by
  rw [selectActivityWithSmoothing, if_pos hwi]

/-- C5: for week index 1 or 2 neither `selectActivity` nor
`selectActivityWithSmoothing` ever returns CASE_PRACTICE, CASE_MOCK or
PROGRAMMING_BLOCK: weeks 1 and 2 are theory-only. -/
theorem weeks12_theory_only (b : GlobalBudget) (ctx : AllocatorContext)
    (wi : ℚ) :
    ((wi = 1 ∨ wi = 2) →
      (selectActivity b wi ctx).1 ≠ some .CASE_PRACTICE ∧
      (selectActivity b wi ctx).1 ≠ some .CASE_MOCK ∧
      (selectActivity b wi ctx).1 ≠ some .PROGRAMMING_BLOCK) ∧
    ((ctx.weekIndex = some 1 ∨ ctx.weekIndex = some 2) →
      (selectActivityWithSmoothing b ctx).1 ≠ some .CASE_PRACTICE ∧
      (selectActivityWithSmoothing b ctx).1 ≠ some .CASE_MOCK ∧
      (selectActivityWithSmoothing b ctx).1 ≠ some .PROGRAMMING_BLOCK) := by
  constructor
  · intro hwi
    have h2 : wi ≤ 2 := by rcases hwi with rfl | rfl <;> norm_num
    rw [selectActivity_week12_theory h2]
    refine ⟨?_, ?_, ?_⟩ <;>
      · intro h
        have := selectTheoryActivity_stream h
        cases this
  · intro hwi
    have h2 : ctx.weekIndex.getD 0 ≤ 2 := by
      rcases hwi with h | h <;> rw [h] <;> norm_num
    rw [selectActivityWithSmoothing_week12_theory h2]
    refine ⟨?_, ?_, ?_⟩ <;>
      · intro h
        have := selectTheoryActivity_stream h
        cases this

/-- Witness for C5 at a concrete budget and context in week 1. -/
theorem weeks12_theory_only_witness :
    ((1:ℚ) = 1 ∨ (1:ℚ) = 2) ∧
    (selectActivity cexBudgetC4 1 cexCtxC4).1 ≠ some .CASE_PRACTICE ∧
    (selectActivity cexBudgetC4 1 cexCtxC4).1 ≠ some .CASE_MOCK ∧
    (selectActivity cexBudgetC4 1 cexCtxC4).1 ≠ some .PROGRAMMING_BLOCK :=
  ⟨Or.inl rfl,
    (weeks12_theory_only cexBudgetC4 cexCtxC4 1).1 (Or.inl rfl)⟩

/-- C4 (amended): `selectTheoryActivity` returns REVIEW only when some unit
has `studyThemeDone ≥ 240` and review remaining; it returns
PODCAST/FLASHCARD/QUIZ only when some unit is activated
(`studyThemeDone > 0`) or is today's locked unit, with the corresponding
remaining positive.  (The unit the block is *attributed* to by
`getCurrentUnitKey` can differ when no today-unit is locked — see the
counterexample.) -/
theorem secondary_gating_spec (b : GlobalBudget) (ctx : AllocatorContext)
    (act : ActivityType)
    (h : (selectTheoryActivity b ctx).1 = some act) :
    (act = .REVIEW →
      ∃ k u, b.unitTheoryRemaining.get? k = some u ∧
        STUDY_THEME_COMPLETE_THRESHOLD ≤ u.studyThemeDone ∧
        0 < u.reviewRemaining) ∧
    ((act = .PODCAST ∨ act = .FLASHCARD ∨ act = .QUIZ) →
      ∃ k u, b.unitTheoryRemaining.get? k = some u ∧
        (0 < u.studyThemeDone ∨ ctx.studyThemeTodayUnit = some k) ∧
        0 < secondaryRemainingFor act u) := by
  constructor
  · rintro rfl
    rcases selectTheoryActivity_spec h with ⟨hst, _⟩ | ⟨k, t, _, hk⟩
    · cases hst
    · rcases selectSecondaryForUnit_spec hk with ⟨u, hg, _, _, _, hrev, hrem⟩
      exact ⟨k, u, hg, hrev rfl, hrem⟩
  · intro hacts
    rcases selectTheoryActivity_spec h with ⟨hst, _⟩ | ⟨k, t, ht, hk⟩
    · rcases hacts with rfl | rfl | rfl <;> cases hst
    · rcases selectSecondaryForUnit_spec hk with ⟨u, hg, _, hact, _, _, hrem⟩
      refine ⟨k, u, hg, ?_, hrem⟩
      rcases hact with hdone | htk
      · exact Or.inl hdone
      · rcases ht with rfl | rfl
        · exact Or.inr htk
        · cases htk

/-- Counterexample for C4 as stated: with no today-unit locked and no
primary-eligible unit, `selectTheoryActivity` returns PODCAST (validated
against the activated unit 1), but the unit the generator attributes the
block to — `getCurrentUnitKey` — is unit 0, which has `studyThemeDone = 0`
and is not today's locked unit: a secondary activity is produced for a
never-activated unit. -/
theorem secondary_attribution_counterexample :
    (selectTheoryActivity cexBudgetC4 cexCtxC4).1 = some .PODCAST ∧
    getCurrentUnitKey cexBudgetC4 (selectTheoryActivity cexBudgetC4 cexCtxC4).2
      = some 0 ∧
    cexBudgetC4.unitTheoryRemaining.get? 0 = some cexUnit0 ∧
    cexUnit0.studyThemeDone = 0 ∧
    cexCtxC4.studyThemeTodayUnit ≠ some 0 := by
  refine ⟨?_, ?_, ?_, ?_, ?_⟩ <;> with_unfolding_all decide

/-- Witness for C4 (amended) at the same concrete budget: PODCAST is
returned and the activated unit 1 validates it. -/
theorem secondary_gating_spec_witness :
    (selectTheoryActivity cexBudgetC4 cexCtxC4).1 = some .PODCAST ∧
    ∃ k u, cexBudgetC4.unitTheoryRemaining.get? k = some u ∧
      (0 < u.studyThemeDone ∨ cexCtxC4.studyThemeTodayUnit = some k) ∧
      0 < secondaryRemainingFor .PODCAST u :=
  ⟨by with_unfolding_all decide,
    (secondary_gating_spec cexBudgetC4 cexCtxC4 .PODCAST
      (by with_unfolding_all decide)).2 (Or.inl rfl)⟩

/-- C6 (amended): in `selectActivityWithSmoothing` with week ≥ 3, writing
`tw, cw, pw` for this week's theory/cases/programming minutes, `wr` for the
minutes remaining in the week and "missing" for a stream below the
60-minute weekly floor with remaining > 0: a missing stream is forced in
the order cases → programming → theory exactly when `wr ≤ 120` (120 minutes
or fewer — not strictly fewer — remain); when `wr > 120` a missing stream
is forced only if it is also least-scheduled (ties broken cases →
programming → theory), and otherwise selection defers to the
remaining-ratio stage `selectActivity`: in particular, when `wr > 120` and
no stream is both missing and least-scheduled — even if some stream is
missing — and also whenever no stream is missing at all, the result is
exactly `selectActivity`. -/
theorem selectActivityWithSmoothing_forcing (b : GlobalBudget)
    (ctx : AllocatorContext)
    (hw : ¬(ctx.weekIndex.getD 0 ≤ 2)) :
    ((ctx.weekRemainingMinutes.getD 0 ≤ 120 ∧
        (ctx.thisWeekCases.getD 0 < WEEKLY_MINIMUM_MINUTES ∧ 0 < b.casesRemaining)) →
      selectActivityWithSmoothing b ctx = (some (selectCasesActivity b), ctx)) ∧
    ((ctx.weekRemainingMinutes.getD 0 ≤ 120 ∧
        ¬(ctx.thisWeekCases.getD 0 < WEEKLY_MINIMUM_MINUTES ∧ 0 < b.casesRemaining) ∧
        (ctx.thisWeekProg.getD 0 < WEEKLY_MINIMUM_MINUTES ∧ 0 < b.programmingRemaining)) →
      selectActivityWithSmoothing b ctx = (some .PROGRAMMING_BLOCK, ctx)) ∧
    ((ctx.weekRemainingMinutes.getD 0 ≤ 120 ∧
        ¬(ctx.thisWeekCases.getD 0 < WEEKLY_MINIMUM_MINUTES ∧ 0 < b.casesRemaining) ∧
        ¬(ctx.thisWeekProg.getD 0 < WEEKLY_MINIMUM_MINUTES ∧ 0 < b.programmingRemaining) ∧
        (ctx.thisWeekTheory.getD 0 < WEEKLY_MINIMUM_MINUTES ∧ 0 < b.theoryRemaining)) →
      selectActivityWithSmoothing b ctx = selectTheoryActivity b ctx) ∧
    ((¬(ctx.weekRemainingMinutes.getD 0 ≤ 120) ∧
        ((ctx.thisWeekCases.getD 0 < WEEKLY_MINIMUM_MINUTES ∧ 0 < b.casesRemaining) ∧
          ctx.thisWeekCases.getD 0 ≤ ctx.thisWeekTheory.getD 0 ∧
          ctx.thisWeekCases.getD 0 ≤ ctx.thisWeekProg.getD 0)) →
      selectActivityWithSmoothing b ctx = (some (selectCasesActivity b), ctx)) ∧
    ((¬(ctx.weekRemainingMinutes.getD 0 ≤ 120) ∧
        ¬((ctx.thisWeekCases.getD 0 < WEEKLY_MINIMUM_MINUTES ∧ 0 < b.casesRemaining) ∧
          ctx.thisWeekCases.getD 0 ≤ ctx.thisWeekTheory.getD 0 ∧
          ctx.thisWeekCases.getD 0 ≤ ctx.thisWeekProg.getD 0) ∧
        ((ctx.thisWeekProg.getD 0 < WEEKLY_MINIMUM_MINUTES ∧ 0 < b.programmingRemaining) ∧
          ctx.thisWeekProg.getD 0 ≤ ctx.thisWeekTheory.getD 0 ∧
          ctx.thisWeekProg.getD 0 ≤ ctx.thisWeekCases.getD 0)) →
      selectActivityWithSmoothing b ctx = (some .PROGRAMMING_BLOCK, ctx)) ∧
    ((¬(ctx.weekRemainingMinutes.getD 0 ≤ 120) ∧
        ¬((ctx.thisWeekCases.getD 0 < WEEKLY_MINIMUM_MINUTES ∧ 0 < b.casesRemaining) ∧
          ctx.thisWeekCases.getD 0 ≤ ctx.thisWeekTheory.getD 0 ∧
          ctx.thisWeekCases.getD 0 ≤ ctx.thisWeekProg.getD 0) ∧
        ¬((ctx.thisWeekProg.getD 0 < WEEKLY_MINIMUM_MINUTES ∧ 0 < b.programmingRemaining) ∧
          ctx.thisWeekProg.getD 0 ≤ ctx.thisWeekTheory.getD 0 ∧
          ctx.thisWeekProg.getD 0 ≤ ctx.thisWeekCases.getD 0) ∧
        ((ctx.thisWeekTheory.getD 0 < WEEKLY_MINIMUM_MINUTES ∧ 0 < b.theoryRemaining) ∧
          ctx.thisWeekTheory.getD 0 ≤ ctx.thisWeekCases.getD 0 ∧
          ctx.thisWeekTheory.getD 0 ≤ ctx.thisWeekProg.getD 0)) →
      selectActivityWithSmoothing b ctx = selectTheoryActivity b ctx) ∧
    ((¬(ctx.weekRemainingMinutes.getD 0 ≤ 120) ∧
        ¬((ctx.thisWeekCases.getD 0 < WEEKLY_MINIMUM_MINUTES ∧ 0 < b.casesRemaining) ∧
          ctx.thisWeekCases.getD 0 ≤ ctx.thisWeekTheory.getD 0 ∧
          ctx.thisWeekCases.getD 0 ≤ ctx.thisWeekProg.getD 0) ∧
        ¬((ctx.thisWeekProg.getD 0 < WEEKLY_MINIMUM_MINUTES ∧ 0 < b.programmingRemaining) ∧
          ctx.thisWeekProg.getD 0 ≤ ctx.thisWeekTheory.getD 0 ∧
          ctx.thisWeekProg.getD 0 ≤ ctx.thisWeekCases.getD 0) ∧
        ¬((ctx.thisWeekTheory.getD 0 < WEEKLY_MINIMUM_MINUTES ∧ 0 < b.theoryRemaining) ∧
          ctx.thisWeekTheory.getD 0 ≤ ctx.thisWeekCases.getD 0 ∧
          ctx.thisWeekTheory.getD 0 ≤ ctx.thisWeekProg.getD 0)) →
      selectActivityWithSmoothing b ctx
        = selectActivity b (ctx.weekIndex.getD 0) ctx) ∧
    ((¬(ctx.thisWeekCases.getD 0 < WEEKLY_MINIMUM_MINUTES ∧ 0 < b.casesRemaining) ∧
        ¬(ctx.thisWeekProg.getD 0 < WEEKLY_MINIMUM_MINUTES ∧ 0 < b.programmingRemaining) ∧
        ¬(ctx.thisWeekTheory.getD 0 < WEEKLY_MINIMUM_MINUTES ∧ 0 < b.theoryRemaining)) →
      selectActivityWithSmoothing b ctx
        = selectActivity b (ctx.weekIndex.getD 0) ctx) := by
  refine ⟨?_, ?_, ?_, ?_, ?_, ?_, ?_, ?_⟩
  · rintro ⟨h1, h2⟩
    rw [selectActivityWithSmoothing]
    dsimp only
    rw [if_neg hw, if_pos ⟨h1, h2⟩]
  · rintro ⟨h1, h2, h3⟩
    rw [selectActivityWithSmoothing]
    dsimp only
    rw [if_neg hw, if_neg (fun hc => h2 hc.2), if_pos ⟨h1, h3⟩]
  · rintro ⟨h1, h2, h3, h4⟩
    rw [selectActivityWithSmoothing]
    dsimp only
    rw [if_neg hw, if_neg (fun hc => h2 hc.2), if_neg (fun hc => h3 hc.2),
      if_pos ⟨h1, h4⟩]
  · rintro ⟨h1, h2⟩
    rw [selectActivityWithSmoothing]
    dsimp only
    rw [if_neg hw, if_neg (fun hc => h1 hc.1), if_neg (fun hc => h1 hc.1),
      if_neg (fun hc => h1 hc.1), if_pos ⟨h2.1, h2.2⟩]
  · rintro ⟨h1, h2, h3⟩
    rw [selectActivityWithSmoothing]
    dsimp only
    rw [if_neg hw, if_neg (fun hc => h1 hc.1), if_neg (fun hc => h1 hc.1),
      if_neg (fun hc => h1 hc.1), if_neg (fun hc => h2 ⟨hc.1, hc.2⟩),
      if_pos ⟨h3.1, h3.2⟩]
  · rintro ⟨h1, h2, h3, h4⟩
    rw [selectActivityWithSmoothing]
    dsimp only
    rw [if_neg hw, if_neg (fun hc => h1 hc.1), if_neg (fun hc => h1 hc.1),
      if_neg (fun hc => h1 hc.1), if_neg (fun hc => h2 ⟨hc.1, hc.2⟩),
      if_neg (fun hc => h3 ⟨hc.1, hc.2⟩), if_pos ⟨h4.1, h4.2⟩]
  · rintro ⟨h0, h1, h2, h3⟩
    rw [selectActivityWithSmoothing]
    dsimp only
    rw [if_neg hw, if_neg (fun hc => h0 hc.1), if_neg (fun hc => h0 hc.1),
      if_neg (fun hc => h0 hc.1), if_neg (fun hc => h1 ⟨hc.1, hc.2⟩),
      if_neg (fun hc => h2 ⟨hc.1, hc.2⟩), if_neg (fun hc => h3 ⟨hc.1, hc.2⟩)]
  · rintro ⟨h1, h2, h3⟩
    rw [selectActivityWithSmoothing]
    dsimp only
    rw [if_neg hw, if_neg (fun hc => h1 hc.2), if_neg (fun hc => h2 hc.2),
      if_neg (fun hc => h3 hc.2), if_neg (fun hc => h1 hc.1),
      if_neg (fun hc => h2 hc.1), if_neg (fun hc => h3 hc.1)]

/-- Counterexample for C6 as stated: with exactly 120 minutes remaining in
the week ("120 or more"), cases below the weekly floor but NOT
least-scheduled (50 > theory's 0), the code still forces cases
(CASE_PRACTICE) — the end-of-week forcing fires at `wr ≤ 120`, not only
below 120; the claim would require deferring, which here selects
STUDY_THEME. -/
theorem smoothing_forcing_boundary_counterexample :
    cexCtxC6.weekIndex.getD 0 = 3 ∧
    cexCtxC6.weekRemainingMinutes.getD 0 = 120 ∧
    (cexCtxC6.thisWeekCases.getD 0 < WEEKLY_MINIMUM_MINUTES ∧
      0 < cexBudgetC6.casesRemaining) ∧
    ¬(cexCtxC6.thisWeekCases.getD 0 ≤ cexCtxC6.thisWeekTheory.getD 0) ∧
    (selectActivityWithSmoothing cexBudgetC6 cexCtxC6).1 = some .CASE_PRACTICE ∧
    (selectTheoryActivity cexBudgetC6 cexCtxC6).1 = some .STUDY_THEME ∧
    some ActivityType.CASE_PRACTICE ≠ some ActivityType.STUDY_THEME := by
  refine ⟨?_, ?_, ?_, ?_, ?_, ?_, ?_⟩ <;> with_unfolding_all decide

/-- Witness for C6 (amended) at the same concrete input: the `wr ≤ 120`
forcing branch returns the cases activity. -/
theorem selectActivityWithSmoothing_forcing_witness :
    ¬(cexCtxC6.weekIndex.getD 0 ≤ 2) ∧
    selectActivityWithSmoothing cexBudgetC6 cexCtxC6
      = (some (selectCasesActivity cexBudgetC6), cexCtxC6) ∧
    selectCasesActivity cexBudgetC6 = .CASE_PRACTICE :=
  ⟨by with_unfolding_all decide,
    (selectActivityWithSmoothing_forcing cexBudgetC6 cexCtxC6
      (by with_unfolding_all decide)).1
      ⟨by with_unfolding_all decide, by with_unfolding_all decide,
        by with_unfolding_all decide⟩,
    by with_unfolding_all decide⟩

theorem stSumBlocks_nil : stSumBlocks [] = 0 := rfl

theorem stSumBlocks_cons (blk : StudyBlock) (l : List StudyBlock) :
    stSumBlocks (blk :: l)
      = (if blk.activity = .STUDY_THEME then blk.durationMinutes else 0)
        + stSumBlocks l := by
  by_cases h : blk.activity = .STUDY_THEME
  · simp [stSumBlocks, List.filter_cons, h]
  · simp [stSumBlocks, List.filter_cons, h]

theorem stSumBlocks_append (l1 l2 : List StudyBlock) :
    stSumBlocks (l1 ++ l2) = stSumBlocks l1 + stSumBlocks l2 := by
  simp [stSumBlocks, List.filter_append]

theorem dayCapOf_nonneg {avail : ℚ} (hav : 0 ≤ avail) : 0 ≤ dayCapOf avail := by
  rw [dayCapOf]
  split_ifs with h
  · have : (0:ℤ) ≤ ⌊avail * (1 / 2)⌋ := Int.floor_nonneg.mpr (by positivity)
    exact_mod_cast this
  · exact le_min hav (by norm_num)

theorem blockDuration_le_60 (prefs : Preferences) (act : ActivityType)
    (r : ℚ) : blockDuration prefs act r ≤ 60 := by
  rw [blockDuration]
  refine le_trans (min_le_left _ _) ?_
  exact min_le_left _ _

theorem smoothing_st_cap {b : GlobalBudget} {ctx : AllocatorContext} {a : ℚ}
    (ha : ctx.availableMinutesToday = some a)
    (h : (selectActivityWithSmoothing b ctx).1 = some .STUDY_THEME) :
    ctx.studyThemeTodayMinutes.getD 0 < theoryCap ctx := by
  rcases selectActivityWithSmoothing_result h with h1 | h1 | h1
  · exact selectTheoryActivity_st_cap ha h1
  · rcases selectCasesActivity_shape b with hc | hc <;> rw [hc] at h1 <;> cases h1
  · cases h1

theorem commitOne_snd_todayMins (date : DateISO) (act : ActivityType)
    (dur : ℚ) (ctx2 : AllocatorContext) (st : DayState) :
    (commitOne date act dur ctx2 st).2.todayMins
      = st.todayMins + (if act = .STUDY_THEME then dur else 0) := rfl

theorem commitOne_fst_activity (date : DateISO) (act : ActivityType)
    (dur : ℚ) (ctx2 : AllocatorContext) (st : DayState) :
    (commitOne date act dur ctx2 st).1.activity = act := rfl

theorem commitOne_fst_dur (date : DateISO) (act : ActivityType)
    (dur : ℚ) (ctx2 : AllocatorContext) (st : DayState) :
    (commitOne date act dur ctx2 st).1.durationMinutes = dur := rfl

theorem mkCtx_avail (g : GenState) (wi : Nat) (wr avail : ℚ)
    (tu : Option Nat) (tm : ℚ) (ov : Option Nat) :
    (mkCtx g wi wr avail tu tm ov).availableMinutesToday = some avail := rfl

theorem drainMain_bound (prefs : Preferences) (date : DateISO) (wi : Nat)
    (fw avail : ℚ) :
    ∀ (fuel : Nat) (st : DayState),
      stSumBlocks (drainMain prefs date wi fw avail fuel st).1 + st.todayMins
        = (drainMain prefs date wi fw avail fuel st).2.todayMins ∧
      (st.todayMins < dayCapOf avail + 60 →
        (drainMain prefs date wi fw avail fuel st).2.todayMins
          < dayCapOf avail + 60) := by
  intro fuel
  induction fuel with
  | zero =>
    intro st
    exact ⟨by rw [drainMain, stSumBlocks_nil]; ring, fun h => h⟩
  | succ n ih =>
    intro st
    rw [drainMain]
    by_cases hrem : st.remaining < 60
    · rw [if_pos hrem]
      exact ⟨by rw [stSumBlocks_nil]; ring, fun h => h⟩
    · rw [if_neg hrem]
      dsimp only
      cases hsel : selectActivityWithSmoothing st.g.budget
          (mkCtx st.g wi (st.remaining + fw) avail st.todayUnit st.todayMins
            st.unitOv) with
      | mk o c2 =>
        cases o with
        | none => exact ⟨by rw [stSumBlocks_nil]; ring, fun h => h⟩
        | some act =>
          dsimp only
          have hih := ih (commitOne date act
            (blockDuration prefs act st.remaining) c2 st).2
          have hcons := stSumBlocks_cons
            (commitOne date act (blockDuration prefs act st.remaining) c2 st).1
            (drainMain prefs date wi fw avail n
              (commitOne date act (blockDuration prefs act st.remaining) c2 st).2).1
          rw [commitOne_fst_activity, commitOne_fst_dur] at hcons
          have htm := commitOne_snd_todayMins date act
            (blockDuration prefs act st.remaining) c2 st
          constructor
          · rw [hcons]
            have h1 := hih.1
            rw [htm] at h1
            linarith
          · intro hlt
            refine hih.2 ?_
            rw [htm]
            by_cases hst : act = .STUDY_THEME
            · rw [if_pos hst]
              subst hst
              have hc : st.todayMins < dayCapOf avail := by
                have := smoothing_st_cap
                  (mkCtx_avail st.g wi (st.remaining + fw) avail st.todayUnit
                    st.todayMins st.unitOv)
                  (show (selectActivityWithSmoothing st.g.budget
                      (mkCtx st.g wi (st.remaining + fw) avail st.todayUnit
                        st.todayMins st.unitOv)).1 = some .STUDY_THEME
                    by rw [hsel])
                exact this
              have hd := blockDuration_le_60 prefs .STUDY_THEME st.remaining
              linarith
            · rw [if_neg hst, add_zero]
              exact hlt

theorem tailCall_bound (date : DateISO) (wi : Nat) (fw avail : ℚ)
    (st : DayState) (hrem : st.remaining ≤ 60) :
    stSumBlocks (tailCall date wi fw avail st).1 + st.todayMins
      = (tailCall date wi fw avail st).2.todayMins ∧
    (st.todayMins < dayCapOf avail + 60 →
      (tailCall date wi fw avail st).2.todayMins < dayCapOf avail + 60) := by
  rw [tailCall]
  dsimp only
  cases hsel : selectActivityWithSmoothing st.g.budget
      (mkCtx st.g wi (st.remaining + fw) avail st.todayUnit st.todayMins
        st.unitOv) with
  | mk o c2 =>
    cases o with
    | none => exact ⟨by rw [stSumBlocks_nil]; ring, fun h => h⟩
    | some act =>
      dsimp only
      have hcons := stSumBlocks_cons
        (commitOne date act st.remaining c2 st).1 []
      rw [commitOne_fst_activity, commitOne_fst_dur] at hcons
      have htm := commitOne_snd_todayMins date act st.remaining c2 st
      constructor
      · rw [hcons, stSumBlocks_nil, htm]
        ring
      · intro hlt
        rw [htm]
        by_cases hst : act = .STUDY_THEME
        · rw [if_pos hst]
          subst hst
          have hc : st.todayMins < dayCapOf avail := by
            have := smoothing_st_cap
              (mkCtx_avail st.g wi (st.remaining + fw) avail st.todayUnit
                st.todayMins st.unitOv)
              (show (selectActivityWithSmoothing st.g.budget
                  (mkCtx st.g wi (st.remaining + fw) avail st.todayUnit
                    st.todayMins st.unitOv)).1 = some .STUDY_THEME
                by rw [hsel])
            exact this
          linarith
        · rw [if_neg hst, add_zero]
          exact hlt

theorem buildDay_date (prefs : Preferences) (g : GenState) (date : DateISO)
    (wi : Nat) (fw avail : ℚ) :
    (buildDay prefs g date wi fw avail).1.date = date := by
  rw [buildDay]
  split_ifs <;> rfl

theorem buildDay_st_bound (prefs : Preferences) (g : GenState)
    (date : DateISO) (wi : Nat) (fw avail : ℚ) (hav : 0 ≤ avail) :
    stSumBlocks (buildDay prefs g date wi fw avail).1.blocks
      < dayCapOf avail + 60 := by
  have hcap : 0 ≤ dayCapOf avail := dayCapOf_nonneg hav
  rw [buildDay]
  by_cases h1 : avail < MIN_BLOCK_DURATION
  · rw [if_pos h1]
    show stSumBlocks [] < _
    rw [stSumBlocks_nil]
    linarith
  · rw [if_neg h1]
    dsimp only
    by_cases h2 : avail < 60
    · rw [if_pos h2]
      have ht := tailCall_bound date wi fw avail ⟨g, none, 0, none, avail, 0⟩
        (le_of_lt h2)
      have h3 := ht.1
      have h4 := ht.2 (by dsimp only; linarith)
      show stSumBlocks (tailCall date wi fw avail
        ⟨g, none, 0, none, avail, 0⟩).1 < _
      dsimp only at h3
      linarith
    · rw [if_neg h2]
      have hd := drainMain_bound prefs date wi fw avail ((⌊avail⌋.toNat / 15) + 2)
        ⟨g, none, 0, none, avail, 0⟩
      have hd1 := hd.1
      have hd2 := hd.2 (by dsimp only; linarith)
      dsimp only at hd1
      by_cases h3 : MIN_BLOCK_DURATION ≤ (drainMain prefs date wi fw avail
          ((⌊avail⌋.toNat / 15) + 2) ⟨g, none, 0, none, avail, 0⟩).2.remaining ∧
          (drainMain prefs date wi fw avail ((⌊avail⌋.toNat / 15) + 2)
            ⟨g, none, 0, none, avail, 0⟩).2.remaining < 60
      · rw [if_pos h3]
        have ht := tailCall_bound date wi fw avail
          (drainMain prefs date wi fw avail ((⌊avail⌋.toNat / 15) + 2)
            ⟨g, none, 0, none, avail, 0⟩).2 (le_of_lt h3.2)
        have ht1 := ht.1
        have ht2 := ht.2 hd2
        show stSumBlocks ((drainMain prefs date wi fw avail
            ((⌊avail⌋.toNat / 15) + 2) ⟨g, none, 0, none, avail, 0⟩).1
          ++ (tailCall date wi fw avail (drainMain prefs date wi fw avail
            ((⌊avail⌋.toNat / 15) + 2) ⟨g, none, 0, none, avail, 0⟩).2).1) < _
        rw [stSumBlocks_append]
        linarith
      · rw [if_neg h3]
        show stSumBlocks (drainMain prefs date wi fw avail
          ((⌊avail⌋.toNat / 15) + 2) ⟨g, none, 0, none, avail, 0⟩).1 < _
        linarith

theorem buildDays_st_bound (inputs : FormInputs) (prefs : Preferences)
    (capacity : PlanCapacity) (today : DateISO) (totalDays : Nat) :
    ∀ (n d : Nat) (g : GenState) (day : DayPlan),
      day ∈ (buildDays inputs prefs capacity today totalDays n d g).1 →
      0 ≤ dayAvailableMinutes inputs day.date →
      stSumBlocks day.blocks
        < dayCapOf (dayAvailableMinutes inputs day.date) + 60 := by
  intro n
  induction n with
  | zero =>
    intro d g day h
    rw [buildDays] at h
    cases h
  | succ k ih =>
    intro d g day h hav
    rw [buildDays] at h
    dsimp only at h
    rcases List.mem_cons.mp h with rfl | hmem
    · by_cases hwk : capacity.effectivePlanningWeeks
          < ((weekIndexOfDay d : Nat) : Int)
      · rw [if_pos hwk] at hav ⊢
        show stSumBlocks [] < _
        rw [stSumBlocks_nil]
        have hc := dayCapOf_nonneg hav
        linarith
      · rw [if_neg hwk] at hav ⊢
        rw [buildDay_date] at hav ⊢
        exact buildDay_st_bound prefs _ (addDays today d) (weekIndexOfDay d)
          (weekFutureMinutes inputs today totalDays d)
          (dayAvailableMinutes inputs (addDays today d)) hav
    · exact ih (d + 1) _ day hmem hav

/-- C3 (amended): `selectTheoryActivity` returns STUDY_THEME only when the
day's cumulative STUDY_THEME minutes are strictly below the daily cap, with
cap = ⌊availableMinutesToday/2⌋ when availableMinutesToday ≥ 240 and
min(availableMinutesToday, 120) otherwise; consequently, in every generated
plan, a day's total STUDY_THEME minutes are strictly below cap + 60 (one
maximal block above the cap; the cap itself can be exceeded by up to one
block — see the counterexample). -/
theorem daily_cap_spec :
    (∀ (b : GlobalBudget) (ctx : AllocatorContext) (a : ℚ),
      ctx.availableMinutesToday = some a →
      (selectTheoryActivity b ctx).1 = some .STUDY_THEME →
      ctx.studyThemeTodayMinutes.getD 0 < theoryCap ctx) ∧
    (∀ (ctx : AllocatorContext) (a : ℚ),
      ctx.availableMinutesToday = some a →
      theoryCap ctx = if 240 ≤ a then ((⌊a / 2⌋ : ℤ) : ℚ) else min a 120) ∧
    (∀ (inputs : FormInputs) (s : StudentState) (todayISO : DateISO)
      (now : Int) (day : DayPlan),
      day ∈ (generatePlanFromState inputs s todayISO now).days →
      0 ≤ dayAvailableMinutes inputs day.date →
      stSumBlocks day.blocks
        < dayCapOf (dayAvailableMinutes inputs day.date) + 60) := by
  refine ⟨?_, ?_, ?_⟩
  · intro b ctx a ha h
    exact selectTheoryActivity_st_cap ha h
  · intro ctx a ha
    rw [theoryCap, ha]
    show (if 240 ≤ a then ((⌊a * (1 / 2)⌋ : ℤ) : ℚ) else min a 120) = _
    rw [mul_one_div]
  · intro inputs s todayISO now day hmem hav
    have hdays : (generatePlanFromState inputs s todayISO now).days
        = (buildDays inputs s.prefs (calculateCapacity inputs todayISO) todayISO
          (diffDays todayISO inputs.examDate).toNat
          (diffDays todayISO inputs.examDate).toNat 0
          ⟨createBudgetFromState s (calculateCapacity inputs todayISO),
            0, 0, 0, 0, 0, 0, 0, 0⟩).1 := rfl
    rw [hdays] at hmem
    exact buildDays_st_bound inputs s.prefs (calculateCapacity inputs todayISO)
      todayISO (diffDays todayISO inputs.examDate).toNat
      (diffDays todayISO inputs.examDate).toNat 0 _ day hmem hav

/-- Counterexample for C3 as stated: on the first day of the plan generated
for 250 available minutes per day, the cap is ⌊250·0.5⌋ = 125, but the day
carries 180 STUDY_THEME minutes (three 60-minute blocks, each started while
cumulative minutes were still below the cap): the daily total exceeds the
cap. -/
theorem daily_cap_counterexample :
    cexPlanDay0.date = 0 ∧
    dayAvailableMinutes cexInputs 0 = 250 ∧
    dayCapOf 250 = 125 ∧
    stSumBlocks cexPlanDay0.blocks = 180 ∧
    ¬(stSumBlocks cexPlanDay0.blocks ≤ dayCapOf 250) := by
  refine ⟨?_, ?_, ?_, ?_, ?_⟩ <;> with_unfolding_all decide

/-- Witness for C3 (amended): the selector part fires on a concrete fresh
budget (STUDY_THEME is returned, so the cumulative minutes are below the
cap), and the plan-level bound holds on the concrete first day. -/
theorem daily_cap_spec_witness :
    (selectTheoryActivity cexBudgetC6 cexCtxC4).1 = some .STUDY_THEME ∧
    cexCtxC4.studyThemeTodayMinutes.getD 0 < theoryCap cexCtxC4 ∧
    cexPlanDay0 ∈ (generatePlanFromState cexInputs cexState 0 0).days ∧
    stSumBlocks cexPlanDay0.blocks
      < dayCapOf (dayAvailableMinutes cexInputs cexPlanDay0.date) + 60 :=
  ⟨by with_unfolding_all decide,
    daily_cap_spec.1 cexBudgetC6 cexCtxC4 240 (by with_unfolding_all decide)
      (by with_unfolding_all decide),
    by with_unfolding_all decide,
    daily_cap_spec.2.2 cexInputs cexState 0 0 cexPlanDay0
      (by with_unfolding_all decide) (by with_unfolding_all decide)⟩

end Selvia
